import Mathlib

/-!
Verification of the raindrop-ripples wave-simulation core.

The definitions below are a shallow embedding of the simulation code:

* `RippleSimulation` models the CPU leapfrog path of
  `RippleSimulation` (the variant that owns three `Float32Array` height
  buffers, injects queued ripples, runs the damped wave equation over
  interior cells, applies edge absorption, rotates the three buffers and
  then writes a height/normal texture).
* `GPURippleSimulation` models the data-parallel path of
  `GPURippleSimulation` (ping-pong textures holding RGBA cells packed as
  R=height, G=velocity, B=normal.x, A=normal.y, a boundary branch, the
  impact-injection kernel and the per-tick update).
* `CausticsRenderer` models the caustics compute kernel of
  `CausticsRenderer.buildComputeNode`.

Numeric conventions: the JavaScript floating-point arithmetic is embedded
as exact arithmetic in a linear ordered field `K` (instantiated at `ℚ` or
`ℝ` in the theorems).  `Math.sqrt` is passed in as an explicit function
argument `sqrt : K → K`; theorems that depend on its value instantiate it
with `Real.sqrt`.  Texture sampling at texel-aligned coordinates is
idealized as a texel fetch with clamped indices.
-/

/-- One RGBA texel.  The simulation packs R=height, G=velocity,
B=normal.x, A=normal.y. -/
@[ext]
structure Cell4 (K : Type*) where
  r : K
  g : K
  b : K
  a : K
deriving DecidableEq

namespace RippleSimulation

variable {K : Type*} [LinearOrderedField K] [FloorRing K]

/-- Configuration fields of the CPU simulation object. -/
structure Params (K : Type*) where
  resolution : ℕ
  waveSpeed : K
  damping : K
  edgeFadeWidth : ℕ
  edgeFadeStrength : K

/-- Mutable state of the CPU simulation: the three height buffers and the
pending-ripple queue. -/
structure State (K : Type*) where
  heightCurrent : ℕ → ℕ → K
  heightPrevious : ℕ → ℕ → K
  heightNext : ℕ → ℕ → K
  ripples : List (K × K × K)

/-- `getEdgeFactor(x, y, res)`: distance from the nearest edge mapped
through a smoothstep, 1 inside the safe zone. -/
def getEdgeFactor (p : Params K) (x y : ℕ) : K :=
  let minDist : ℕ := min (min x (p.resolution - 1 - x)) (min y (p.resolution - 1 - y))
  if p.edgeFadeWidth ≤ minDist then 1
  else
    let t : K := (minDist : K) / (p.edgeFadeWidth : K)
    t * t * (3 - 2 * t)

/-- `addRipple(x, z, strength)` on the CPU path: convert world position to
normalized texture coordinates and enqueue the ripple when in bounds. -/
def addRipple (x z strength : K) (s : State K) : State K :=
  let u := x / 20 + 1 / 2
  let v := z / 20 + 1 / 2
  if 0 ≤ u ∧ u ≤ 1 ∧ 0 ≤ v ∧ v ≤ 1 then
    { s with ripples := s.ripples ++ [(u, v, strength)] }
  else
    s

/-- Amount the injection loop of `update` adds to cell `(px, py)` for one
pending ripple: the cell is touched when its offset from
`(⌊u·res⌋, ⌊v·res⌋)` lies in the `[-3,3]` box, the cell is inside the
grid and its Euclidean distance from the center is at most the radius 3,
and then receives `strength × (1 − dist/3)²`. -/
def rippleDeposit (sqrt : K → K) (res : ℕ) (rip : K × K × K) (px py : ℕ) : K :=
  let cx : ℤ := ⌊rip.1 * (res : K)⌋
  let cy : ℤ := ⌊rip.2.1 * (res : K)⌋
  let dx : ℤ := (px : ℤ) - cx
  let dy : ℤ := (py : ℤ) - cy
  if -3 ≤ dx ∧ dx ≤ 3 ∧ -3 ≤ dy ∧ dy ≤ 3 ∧ px < res ∧ py < res then
    let dist : K := sqrt (((dx * dx + dy * dy : ℤ) : K))
    if dist ≤ 3 then rip.2.2 * (1 - dist / 3) * (1 - dist / 3) else 0
  else 0

/-- The injection phase of `update`: every pending ripple adds its deposit
to `heightCurrent`. -/
def injectRipples (sqrt : K → K) (res : ℕ) (rs : List (K × K × K))
    (h : ℕ → ℕ → K) : ℕ → ℕ → K :=
  fun px py => h px py + (rs.map fun rip => rippleDeposit sqrt res rip px py).sum

/-- The wave-equation phase of `update`: interior cells get the damped
leapfrog update followed by edge absorption; cells the loop does not touch
keep the stale contents of the `heightNext` buffer. -/
def nextHeight (p : Params K) (cur prev nextOld : ℕ → ℕ → K) : ℕ → ℕ → K :=
  fun x y =>
    if 1 ≤ x ∧ x < p.resolution - 1 ∧ 1 ≤ y ∧ y < p.resolution - 1 then
      let c2 := p.waveSpeed * p.waveSpeed
      let laplacian := cur (x - 1) y + cur (x + 1) y + cur x (y - 1) + cur x (y + 1)
        - 4 * cur x y
      let newHeight := (2 * cur x y - prev x y + c2 * laplacian) * p.damping
      let edgeFactor := getEdgeFactor p x y
      if edgeFactor < 1 then
        newHeight * (p.edgeFadeStrength + (1 - p.edgeFadeStrength) * edgeFactor)
      else newHeight
    else nextOld x y

/-- One CPU `update` call: inject pending ripples, run the wave equation,
rotate the three buffers, clear the queue. -/
def update (sqrt : K → K) (p : Params K) (s : State K) : State K :=
  let injected := injectRipples sqrt p.resolution s.ripples s.heightCurrent
  let freshNext := nextHeight p injected s.heightPrevious s.heightNext
  { heightCurrent := freshNext
    heightPrevious := injected
    heightNext := s.heightPrevious
    ripples := [] }

/-- The texture-write stage at the end of the CPU `update`: height in R,
zero velocity in G, central-difference normals (clamped at the border) in
B and A, all read from the freshly rotated-in `heightCurrent`. -/
def textureRecord (res : ℕ) (h : ℕ → ℕ → K) (x y : ℕ) : Cell4 K :=
  let hL := if 0 < x then h (x - 1) y else h x y
  let hR := if x < res - 1 then h (x + 1) y else h x y
  let hU := if 0 < y then h x (y - 1) else h x y
  let hD := if y < res - 1 then h x (y + 1) else h x y
  ⟨h x y, 0, (hL - hR) * 2, (hU - hD) * 2⟩

/-- Sum of squared heights over the whole grid (the spec's energy). -/
def energy (res : ℕ) (h : ℕ → ℕ → K) : K :=
  ∑ x ∈ Finset.range res, ∑ y ∈ Finset.range res, h x y ^ 2

end RippleSimulation

namespace GPURippleSimulation

variable {K : Type*} [LinearOrderedField K]

/-- Configuration fields of the GPU simulation object. -/
structure Params (K : Type*) where
  resolution : ℕ
  waveSpeed : K
  damping : K

/-- One dispatch of the wave-simulation kernel built by
`waveSimulationFn`, as a map from the source texture to the destination
texture.  Boundary texels take the zero-writing branch; interior texels
take the velocity-form update and store source-height normals. -/
def waveSimulationFn (p : Params K) (src : ℕ → ℕ → Cell4 K) : ℕ → ℕ → Cell4 K :=
  fun x y =>
    if x = 0 ∨ p.resolution - 1 ≤ x ∨ y = 0 ∨ p.resolution - 1 ≤ y then
      ⟨0, 0, 0, 1⟩
    else
      let current := src x y
      let left := src (x - 1) y
      let right := src (x + 1) y
      let up := src x (y - 1)
      let down := src x (y + 1)
      let laplacian := left.r + right.r + up.r + down.r - current.r * 4
      let c2 := p.waveSpeed * p.waveSpeed
      let newVelocity := (current.g + laplacian * c2) * p.damping
      let newHeight := current.r + newVelocity
      ⟨newHeight, newVelocity, (left.r - right.r) * 2, (up.r - down.r) * 2⟩

/-- One dispatch of the impact-injection kernel built by `impactFn`:
texels strictly within radius 3 of the impact center gain
`strength × (1 − dist/3)²` of height; other channels are preserved. -/
def impactFn (sqrt : K → K) (cx cy strength : K)
    (target : ℕ → ℕ → Cell4 K) : ℕ → ℕ → Cell4 K :=
  fun x y =>
    let dx := (x : K) - cx
    let dy := (y : K) - cy
    let dist := sqrt (dx * dx + dy * dy)
    if dist < 3 then
      let cell := target x y
      let falloff := 1 - dist / 3
      ⟨cell.r + strength * falloff * falloff, cell.g, cell.b, cell.a⟩
    else target x y

/-- Mutable state of the GPU simulation: the two ping-pong textures, the
parity flag, the pending-impact queue, and the last computed texture that
`getHeightTexture` hands to consumers. -/
structure State (K : Type*) where
  textureA : ℕ → ℕ → Cell4 K
  textureB : ℕ → ℕ → Cell4 K
  pingPong : ℕ
  pendingImpacts : List (K × K × K)
  lastComputedTexture : Option (ℕ → ℕ → Cell4 K)

/-- `addRipple(x, z, strength)` on the GPU path: convert to normalized
coordinates, drop out-of-bounds events, otherwise enqueue the impact at
grid coordinates `(u·res, v·res)`. -/
def addRipple (p : Params K) (x z strength : K) (s : State K) : State K :=
  let u := x / 20 + 1 / 2
  let v := z / 20 + 1 / 2
  if 0 ≤ u ∧ u ≤ 1 ∧ 0 ≤ v ∧ v ≤ 1 then
    { s with pendingImpacts :=
        s.pendingImpacts ++ [(u * (p.resolution : K), v * (p.resolution : K), strength)] }
  else s

/-- One GPU `update` call: run the impact kernel for every pending impact
on the current ping-pong source texture, clear the queue, run the wave
kernel into the destination texture and flip the parity, recording the
destination as the last computed texture. -/
def update (sqrt : K → K) (p : Params K) (s : State K) : State K :=
  let currentTexture := if s.pingPong = 0 then s.textureA else s.textureB
  let injected := s.pendingImpacts.foldl
    (fun tex imp => impactFn sqrt imp.1 imp.2.1 imp.2.2 tex) currentTexture
  let dst := waveSimulationFn p injected
  if s.pingPong = 0 then
    { textureA := injected
      textureB := dst
      pingPong := 1
      pendingImpacts := []
      lastComputedTexture := some dst }
  else
    { textureA := dst
      textureB := injected
      pingPong := 0
      pendingImpacts := []
      lastComputedTexture := some dst }

/-- `getHeightTexture()`: the last computed texture, defaulting to
`textureA` before the first update. -/
def getHeightTexture (s : State K) : ℕ → ℕ → Cell4 K :=
  s.lastComputedTexture.getD s.textureA

end GPURippleSimulation

namespace CausticsRenderer

variable {K : Type*} [LinearOrderedField K]

/-- Texel fetch with coordinates clamped to the grid — the idealization of
sampling a clamp-to-edge texture at texel-aligned coordinates.  `ℕ`
subtraction already clamps a left/up neighbor at 0, and `min` clamps a
right/down neighbor at `res − 1`. -/
def sampleClamped (res : ℕ) (tex : ℕ → ℕ → Cell4 K) (x y : ℕ) : Cell4 K :=
  tex (min x (res - 1)) (min y (res - 1))

/-- The caustics compute kernel of `buildComputeNode` at output cell
`(x, y)`.  The four neighbor samples `h1..h4` read the B channel
(normal.x) of the height map, exactly as the source does; the center term
is the R channel (height) times 4.  The refracted-ray floor offset the
source also computes never feeds the stored output and is omitted. -/
def computeNode (res : ℕ) (intensity : K) (heightMap : ℕ → ℕ → Cell4 K)
    (x y : ℕ) : Cell4 K :=
  let heightSample := heightMap x y
  let h1 := (sampleClamped res heightMap (x + 1) y).b
  let h2 := (sampleClamped res heightMap x (y + 1)).b
  let h3 := (sampleClamped res heightMap (x - 1) y).b
  let h4 := (sampleClamped res heightMap x (y - 1)).b
  let laplacian := h1 + h2 + h3 + h4 - heightSample.r * 4
  let focusFactor := laplacian * 50
  let causticValue := (3 / 10 + focusFactor) * intensity
  let finalIntensity := min (max causticValue 0) 2
  let warmth := finalIntensity * (1 / 10)
  ⟨finalIntensity + warmth, finalIntensity, finalIntensity - warmth * (1 / 2), 1⟩

/-- The intensity the specification prescribes for the caustics refresh:
the 4-neighbor Laplacian of the height field (the R channel) as the
curvature estimate, then `(0.3 + curvature × focusGain) × intensity`
clamped to `[0, 2]`.  This definition follows the spec's words, to be
compared with `computeNode`. -/
def specIntensity (res : ℕ) (intensity focusGain : K)
    (heightMap : ℕ → ℕ → Cell4 K) (x y : ℕ) : K :=
  let curvature := (sampleClamped res heightMap (x + 1) y).r
    + (sampleClamped res heightMap x (y + 1)).r
    + (sampleClamped res heightMap (x - 1) y).r
    + (sampleClamped res heightMap x (y - 1)).r
    - (heightMap x y).r * 4
  min (max ((3 / 10 + curvature * focusGain) * intensity) 0) 2

end CausticsRenderer

/-- The smoothstep the specification writes for the edge fade,
`t² × (3 − 2t)` (definition follows the spec's words, to be compared with
`RippleSimulation.getEdgeFactor`). -/
def specSmoothstep {K : Type*} [LinearOrderedField K] (t : K) : K :=
  t * t * (3 - 2 * t)

section Claims

set_option linter.unusedSectionVars false

variable {K : Type*} [LinearOrderedField K] [FloorRing K]

/-- Auxiliary: a smoothstep value on `[0, 1)` stays strictly below 1. -/
theorem specSmoothstep_lt_one (t : K) (h0 : 0 ≤ t) (h1 : t < 1) :
    specSmoothstep t < 1 := by
  have hpos : 0 < (1 - t) * (1 - t) * (1 + 2 * t) := by
    have h2 : 0 < 1 - t := by linarith
    have h3 : 0 < 1 + 2 * t := by linarith
    positivity
  unfold specSmoothstep
  nlinarith [hpos]

/-- C10: `addRipple` never modifies any height buffer or exposed texture:
on both execution paths it either appends exactly one entry to the
pending queue (for an in-bounds event) or changes nothing at all; the
height field can change only during `update`. -/
theorem c10_addRipple_only_queues (x z strength : K)
    (s : RippleSimulation.State K) (p : GPURippleSimulation.Params K)
    (g : GPURippleSimulation.State K) :
    (RippleSimulation.addRipple x z strength s).heightCurrent = s.heightCurrent ∧
    (RippleSimulation.addRipple x z strength s).heightPrevious = s.heightPrevious ∧
    (RippleSimulation.addRipple x z strength s).heightNext = s.heightNext ∧
    (RippleSimulation.addRipple x z strength s).ripples =
      (if 0 ≤ x / 20 + 1 / 2 ∧ x / 20 + 1 / 2 ≤ 1 ∧
          0 ≤ z / 20 + 1 / 2 ∧ z / 20 + 1 / 2 ≤ 1 then
        s.ripples ++ [(x / 20 + 1 / 2, z / 20 + 1 / 2, strength)]
      else s.ripples) ∧
    (GPURippleSimulation.addRipple p x z strength g).textureA = g.textureA ∧
    (GPURippleSimulation.addRipple p x z strength g).textureB = g.textureB ∧
    (GPURippleSimulation.addRipple p x z strength g).lastComputedTexture =
      g.lastComputedTexture ∧
    (GPURippleSimulation.addRipple p x z strength g).pendingImpacts =
      (if 0 ≤ x / 20 + 1 / 2 ∧ x / 20 + 1 / 2 ≤ 1 ∧
          0 ≤ z / 20 + 1 / 2 ∧ z / 20 + 1 / 2 ≤ 1 then
        g.pendingImpacts ++
          [((x / 20 + 1 / 2) * (p.resolution : K),
            (z / 20 + 1 / 2) * (p.resolution : K), strength)]
      else g.pendingImpacts) := by
  unfold RippleSimulation.addRipple GPURippleSimulation.addRipple
  by_cases hc : 0 ≤ x / 20 + 1 / 2 ∧ x / 20 + 1 / 2 ≤ 1 ∧
      0 ≤ z / 20 + 1 / 2 ∧ z / 20 + 1 / 2 ≤ 1
  · simp only [if_pos hc]
    simp
  · simp only [if_neg hc]
    simp

/-- C8: an impact event whose normalized coordinate falls outside `[0,1]`
on either axis is silently dropped: `addRipple` leaves the entire state of
both execution paths identical to never having called it. -/
theorem c8_out_of_bounds_impact_noop (x z strength : K)
    (s : RippleSimulation.State K) (p : GPURippleSimulation.Params K)
    (g : GPURippleSimulation.State K)
    (h : x / 20 + 1 / 2 < 0 ∨ 1 < x / 20 + 1 / 2 ∨
         z / 20 + 1 / 2 < 0 ∨ 1 < z / 20 + 1 / 2) :
    RippleSimulation.addRipple x z strength s = s ∧
    GPURippleSimulation.addRipple p x z strength g = g := by
  have hcond : ¬ (0 ≤ x / 20 + 1 / 2 ∧ x / 20 + 1 / 2 ≤ 1 ∧
      0 ≤ z / 20 + 1 / 2 ∧ z / 20 + 1 / 2 ≤ 1) := by
    rcases h with h | h | h | h <;> intro hc <;>
      rcases hc with ⟨h1, h2, h3, h4⟩ <;> linarith
  constructor
  · unfold RippleSimulation.addRipple
    rw [if_neg hcond]
  · unfold GPURippleSimulation.addRipple
    rw [if_neg hcond]

/-- Witness for C8 at the spec's own example: world position `x = 20`
normalizes to `u = 1.5 ∉ [0,1]`, and the call is a no-op on both paths. -/
theorem c8_witness :
    (1 < (20 : ℚ) / 20 + 1 / 2) ∧
    (RippleSimulation.addRipple (20 : ℚ) 0 1
        ⟨fun _ _ => 0, fun _ _ => 0, fun _ _ => 0, []⟩ =
      ⟨fun _ _ => 0, fun _ _ => 0, fun _ _ => 0, []⟩ ∧
     GPURippleSimulation.addRipple ⟨256, 3 / 10, 199 / 200⟩ (20 : ℚ) 0 1
        ⟨fun _ _ => ⟨0, 0, 0, 0⟩, fun _ _ => ⟨0, 0, 0, 0⟩, 0, [], none⟩ =
      ⟨fun _ _ => ⟨0, 0, 0, 0⟩, fun _ _ => ⟨0, 0, 0, 0⟩, 0, [], none⟩) :=
  ⟨by norm_num,
   c8_out_of_bounds_impact_noop 20 0 1 _ _ _ (Or.inr (Or.inl (by norm_num)))⟩

/-- C5: in the GPU path one step computes, for every interior cell,
`velocity' = (velocity + laplacian × waveSpeed²) × damping` and
`height' = height + velocity'`, and every boundary cell (`x` or `y` equal
to `0` or `resolution − 1`) is written height 0 and velocity 0 by a
distinct branch whose output never depends on the source texture. -/
theorem c5_gpu_velocity_form_and_boundary (p : GPURippleSimulation.Params K)
    (src : ℕ → ℕ → Cell4 K) (x y : ℕ)
    (hx : x < p.resolution) (hy : y < p.resolution) :
    ((x = 0 ∨ x = p.resolution - 1 ∨ y = 0 ∨ y = p.resolution - 1) →
      GPURippleSimulation.waveSimulationFn p src x y = ⟨0, 0, 0, 1⟩) ∧
    (x ≠ 0 → x ≠ p.resolution - 1 → y ≠ 0 → y ≠ p.resolution - 1 →
      (GPURippleSimulation.waveSimulationFn p src x y).g =
        ((src x y).g +
          ((src (x - 1) y).r + (src (x + 1) y).r + (src x (y - 1)).r +
            (src x (y + 1)).r - (src x y).r * 4) *
          (p.waveSpeed * p.waveSpeed)) * p.damping ∧
      (GPURippleSimulation.waveSimulationFn p src x y).r =
        (src x y).r + (GPURippleSimulation.waveSimulationFn p src x y).g) := by
  constructor
  · intro hb
    unfold GPURippleSimulation.waveSimulationFn
    rw [if_pos (by omega)]
  · intro h1 h2 h3 h4
    unfold GPURippleSimulation.waveSimulationFn
    rw [if_neg (by omega)]
    exact ⟨rfl, rfl⟩

/-- Witness for C5 on a 4×4 grid: cell (1, 2) is interior, cell (0, 2) is
boundary, and both branch equations evaluate as the theorem states. -/
theorem c5_witness :
    ((1 : ℕ) < 4 ∧ (0 : ℕ) < 4 ∧ (2 : ℕ) < 4) ∧
    (GPURippleSimulation.waveSimulationFn (K := ℚ) ⟨4, 3 / 10, 199 / 200⟩
        (fun x y => ⟨(x : ℚ) + y, 1, 0, 0⟩) 0 2 = ⟨0, 0, 0, 1⟩ ∧
     (GPURippleSimulation.waveSimulationFn (K := ℚ) ⟨4, 3 / 10, 199 / 200⟩
        (fun x y => ⟨(x : ℚ) + y, 1, 0, 0⟩) 1 2).g =
       ((1 : ℚ) + ((2 + 4 + 2 + 4 : ℚ) - 3 * 4) * (3 / 10 * (3 / 10))) *
         (199 / 200)) := by
  have hb := (c5_gpu_velocity_form_and_boundary (K := ℚ) ⟨4, 3 / 10, 199 / 200⟩
    (fun x y => ⟨(x : ℚ) + y, 1, 0, 0⟩) 0 2 (by norm_num) (by norm_num)).1
    (Or.inl rfl)
  have hi := (c5_gpu_velocity_form_and_boundary (K := ℚ) ⟨4, 3 / 10, 199 / 200⟩
    (fun x y => ⟨(x : ℚ) + y, 1, 0, 0⟩) 1 2 (by norm_num) (by norm_num)).2
    (by norm_num) (by norm_num) (by norm_num) (by norm_num)
  refine ⟨by norm_num, hb, ?_⟩
  rw [hi.1]
  norm_num

/-- C4: in the CPU path every interior cell is updated to
`(2×current − previous + waveSpeed²×laplacian) × damping` with the
4-neighbor laplacian read from the current grid, and a cell within
`edgeFadeWidth` of an edge then has that freshly computed value multiplied
by `edgeFadeStrength + (1 − edgeFadeStrength) × smoothstep(dist/width)` —
the absorption comes after the damped wave update, not folded into it. -/
theorem c4_cpu_update_with_edge_absorption (p : RippleSimulation.Params K)
    (cur prev nextOld : ℕ → ℕ → K) (x y : ℕ)
    (hx1 : 1 ≤ x) (hx2 : x < p.resolution - 1)
    (hy1 : 1 ≤ y) (hy2 : y < p.resolution - 1) :
    (min (min x (p.resolution - 1 - x)) (min y (p.resolution - 1 - y)) <
        p.edgeFadeWidth →
      RippleSimulation.nextHeight p cur prev nextOld x y =
        ((2 * cur x y - prev x y +
            p.waveSpeed * p.waveSpeed *
              (cur (x - 1) y + cur (x + 1) y + cur x (y - 1) + cur x (y + 1) -
                4 * cur x y)) * p.damping) *
        (p.edgeFadeStrength + (1 - p.edgeFadeStrength) *
          specSmoothstep
            (((min (min x (p.resolution - 1 - x)) (min y (p.resolution - 1 - y)) : ℕ) : K) /
              (p.edgeFadeWidth : K)))) ∧
    (p.edgeFadeWidth ≤
        min (min x (p.resolution - 1 - x)) (min y (p.resolution - 1 - y)) →
      RippleSimulation.nextHeight p cur prev nextOld x y =
        (2 * cur x y - prev x y +
          p.waveSpeed * p.waveSpeed *
            (cur (x - 1) y + cur (x + 1) y + cur x (y - 1) + cur x (y + 1) -
              4 * cur x y)) * p.damping) := by
  constructor
  · intro hfade
    have hW : 0 < p.edgeFadeWidth := lt_of_le_of_lt (Nat.zero_le _) hfade
    have ht0 : (0 : K) ≤
        ((min (min x (p.resolution - 1 - x)) (min y (p.resolution - 1 - y)) : ℕ) : K) /
          (p.edgeFadeWidth : K) :=
      div_nonneg (Nat.cast_nonneg _) (Nat.cast_nonneg _)
    have ht1 :
        ((min (min x (p.resolution - 1 - x)) (min y (p.resolution - 1 - y)) : ℕ) : K) /
          (p.edgeFadeWidth : K) < 1 := by
      rw [div_lt_one (by exact_mod_cast hW)]
      exact_mod_cast hfade
    have hsm := specSmoothstep_lt_one _ ht0 ht1
    unfold specSmoothstep at hsm
    unfold RippleSimulation.nextHeight RippleSimulation.getEdgeFactor
    rw [if_pos ⟨hx1, hx2, hy1, hy2⟩, if_neg (Nat.not_le.mpr hfade), if_pos hsm]
    unfold specSmoothstep
    rfl
  · intro hout
    unfold RippleSimulation.nextHeight RippleSimulation.getEdgeFactor
    rw [if_pos ⟨hx1, hx2, hy1, hy2⟩, if_pos hout, if_neg (lt_irrefl (1 : K))]

/-- Witness for C4 on a 64×64 grid with the source's default edge-fade
configuration: interior cell (1, 1) sits in the fade band and gets the
absorption factor, interior cell (30, 30) sits at edge distance 30 ≥ 25
and gets the plain damped update. -/
theorem c4_witness :
    ((1 : ℕ) ≤ 1 ∧ (1 : ℕ) < 64 - 1 ∧
      min (min 1 (64 - 1 - 1)) (min 1 (64 - 1 - 1)) < 25 ∧
      25 ≤ min (min 30 (64 - 1 - 30)) (min 30 (64 - 1 - 30))) ∧
    RippleSimulation.nextHeight (K := ℚ) ⟨64, 3 / 10, 197 / 200, 25, 23 / 25⟩
        (fun _ _ => 1) (fun _ _ => 0) (fun _ _ => 0) 1 1 =
      (2 * (197 / 200)) * (23 / 25 + (2 / 25) * (73 / 15625)) ∧
    RippleSimulation.nextHeight (K := ℚ) ⟨64, 3 / 10, 197 / 200, 25, 23 / 25⟩
        (fun _ _ => 1) (fun _ _ => 0) (fun _ _ => 0) 30 30 =
      2 * (197 / 200) := by
  have hfade := (c4_cpu_update_with_edge_absorption (K := ℚ)
    ⟨64, 3 / 10, 197 / 200, 25, 23 / 25⟩
    (fun _ _ => 1) (fun _ _ => 0) (fun _ _ => 0) 1 1
    (by norm_num) (by norm_num) (by norm_num) (by norm_num)).1 (by norm_num)
  have hplain := (c4_cpu_update_with_edge_absorption (K := ℚ)
    ⟨64, 3 / 10, 197 / 200, 25, 23 / 25⟩
    (fun _ _ => 1) (fun _ _ => 0) (fun _ _ => 0) 30 30
    (by norm_num) (by norm_num) (by norm_num) (by norm_num)).2 (by norm_num)
  refine ⟨by norm_num, ?_, ?_⟩
  · rw [hfade]
    norm_num [specSmoothstep]
  · rw [hplain]
    norm_num

/-- Auxiliary: whatever the state, after one GPU update the exposed
texture holds the constant `(0, 0, 0, 1)` at every boundary texel — the
wave kernel's boundary branch wrote it there. -/
theorem gpu_update_boundary_exposed (sqrt : K → K)
    (q : GPURippleSimulation.Params K) (s : GPURippleSimulation.State K)
    (x y : ℕ)
    (hb : x = 0 ∨ q.resolution - 1 ≤ x ∨ y = 0 ∨ q.resolution - 1 ≤ y) :
    GPURippleSimulation.getHeightTexture (GPURippleSimulation.update sqrt q s) x y =
      ⟨0, 0, 0, 1⟩ := by
  unfold GPURippleSimulation.update GPURippleSimulation.getHeightTexture
  by_cases hp : s.pingPong = 0
  · simp only [if_pos hp]
    show GPURippleSimulation.waveSimulationFn q _ x y = _
    unfold GPURippleSimulation.waveSimulationFn
    rw [if_pos hb]
  · simp only [if_neg hp]
    show GPURippleSimulation.waveSimulationFn q _ x y = _
    unfold GPURippleSimulation.waveSimulationFn
    rw [if_pos hb]

/-- Auxiliary: injecting an empty ripple list changes nothing. -/
theorem injectRipples_nil (sqrt : K → K) (res : ℕ) (h : ℕ → ℕ → K) :
    RippleSimulation.injectRipples sqrt res [] h = h := by
  funext a b
  simp [RippleSimulation.injectRipples]

/-- Auxiliary: the wave phase maps the all-zero buffers to the all-zero
buffer. -/
theorem nextHeight_zero (p : RippleSimulation.Params K) :
    RippleSimulation.nextHeight p (fun _ _ => 0) (fun _ _ => 0) (fun _ _ => 0) =
      fun _ _ => (0 : K) := by
  funext a b
  unfold RippleSimulation.nextHeight
  simp

/-- Auxiliary: the all-zero CPU state with an empty queue is a fixed point
of `update`. -/
theorem cpu_update_zero_fixed (sqrt : K → K) (p : RippleSimulation.Params K) :
    RippleSimulation.update sqrt p ⟨fun _ _ => 0, fun _ _ => 0, fun _ _ => 0, []⟩ =
      ⟨fun _ _ => 0, fun _ _ => 0, fun _ _ => 0, []⟩ := by
  simp [RippleSimulation.update, injectRipples_nil, nextHeight_zero]

/-- Auxiliary: the texture stage over an all-zero height field writes the
all-zero record everywhere. -/
theorem textureRecord_zero (res x y : ℕ) :
    RippleSimulation.textureRecord res (fun _ _ => (0 : K)) x y = ⟨0, 0, 0, 0⟩ := by
  unfold RippleSimulation.textureRecord
  split_ifs <;> norm_num

/-- C7 (code bug): from an all-zero state with an empty queue, the CPU
path keeps the exposed height/normal field exactly zero after any number
of steps, but in the GPU path every update writes boundary texels as
`vec4(0, 0, 0, 1)`, so the fourth exposed channel — normal.y in the
packing, and zero per the kernel's own boundary comment — is 1, not 0. -/
theorem c7_zero_input_stability (sqrt1 sqrt2 : K → K)
    (p : RippleSimulation.Params K) (q : GPURippleSimulation.Params K)
    (n m x y : ℕ) :
    RippleSimulation.textureRecord p.resolution
        (((RippleSimulation.update sqrt1 p)^[n]
            ⟨fun _ _ => 0, fun _ _ => 0, fun _ _ => 0, []⟩).heightCurrent) x y =
      ⟨0, 0, 0, 0⟩ ∧
    GPURippleSimulation.getHeightTexture
        ((GPURippleSimulation.update sqrt2 q)^[m + 1]
          ⟨fun _ _ => ⟨0, 0, 0, 0⟩, fun _ _ => ⟨0, 0, 0, 0⟩, 0, [], none⟩) 0 0 =
      ⟨0, 0, 0, 1⟩ ∧
    ((⟨0, 0, 0, 1⟩ : Cell4 K)).a ≠ 0 := by
  refine ⟨?_, ?_, one_ne_zero⟩
  · rw [Function.iterate_fixed (cpu_update_zero_fixed sqrt1 p) n]
    exact textureRecord_zero _ _ _
  · rw [Function.iterate_succ_apply']
    exact gpu_update_boundary_exposed sqrt2 q _ 0 0 (Or.inl rfl)

/-- C9 (code bug): after a GPU update — including one whose tick carried
pending impacts that added height to boundary cells before the step — the
newly authoritative texture's boundary cells hold height 0 and velocity 0,
but the fourth channel (normal.y in the packing) is written 1, not 0. -/
theorem c9_gpu_boundary_channels (sqrt : K → K)
    (q : GPURippleSimulation.Params K) (s : GPURippleSimulation.State K)
    (x y : ℕ)
    (hb : x = 0 ∨ x = q.resolution - 1 ∨ y = 0 ∨ y = q.resolution - 1) :
    GPURippleSimulation.getHeightTexture (GPURippleSimulation.update sqrt q s) x y =
      ⟨0, 0, 0, 1⟩ ∧ ((1 : K) ≠ 0) := by
  refine ⟨?_, one_ne_zero⟩
  apply gpu_update_boundary_exposed
  rcases hb with h | h | h | h
  · exact Or.inl h
  · exact Or.inr (Or.inl (le_of_eq h.symm))
  · exact Or.inr (Or.inr (Or.inl h))
  · exact Or.inr (Or.inr (Or.inr (le_of_eq h.symm)))

/-- Witness for C9: resolution 4, an impact queued at grid cell (0, 0)
with strength 1, boundary cell (0, 0) of the exposed texture after the
update. -/
theorem c9_witness :
    ((0 : ℕ) = 0 ∨ (0 : ℕ) = 4 - 1 ∨ (0 : ℕ) = 0 ∨ (0 : ℕ) = 4 - 1) ∧
    GPURippleSimulation.getHeightTexture
        (GPURippleSimulation.update (fun q => q) ⟨4, 3 / 10, 199 / 200⟩
          ⟨fun _ _ => ⟨0, 0, 0, 0⟩, fun _ _ => ⟨0, 0, 0, 0⟩, 0, [((0 : ℚ), 0, 1)], none⟩)
        0 0 = ⟨0, 0, 0, 1⟩ :=
  ⟨Or.inl rfl,
   (c9_gpu_boundary_channels (fun q => q) ⟨4, 3 / 10, 199 / 200⟩
      ⟨fun _ _ => ⟨0, 0, 0, 0⟩, fun _ _ => ⟨0, 0, 0, 0⟩, 0, [((0 : ℚ), 0, 1)], none⟩
      0 0 (Or.inl rfl)).1⟩

/-- C6 counterexample: on a 4×4 grid whose source texture carries a unit
bump at cell (1, 1), the GPU step's destination texture stores normal.x
equal to 2 at cell (2, 1), while the claimed invariant — left/right height
difference of the exposed (destination) field times 2 — evaluates to
3209/2500 there: the stored GPU normals are gradients of the pre-step
heights, not of the exposed heights. -/
theorem c6_counterexample :
    (GPURippleSimulation.waveSimulationFn (K := ℚ) ⟨4, 3 / 10, 199 / 200⟩
        (fun x y => if x = 1 ∧ y = 1 then ⟨1, 0, 0, 0⟩ else ⟨0, 0, 0, 0⟩) 2 1).b = 2 ∧
    ((GPURippleSimulation.waveSimulationFn (K := ℚ) ⟨4, 3 / 10, 199 / 200⟩
        (fun x y => if x = 1 ∧ y = 1 then ⟨1, 0, 0, 0⟩ else ⟨0, 0, 0, 0⟩) 1 1).r -
     (GPURippleSimulation.waveSimulationFn (K := ℚ) ⟨4, 3 / 10, 199 / 200⟩
        (fun x y => if x = 1 ∧ y = 1 then ⟨1, 0, 0, 0⟩ else ⟨0, 0, 0, 0⟩) 3 1).r) * 2 =
      3209 / 2500 ∧
    (2 : ℚ) ≠ 3209 / 2500 := by
  refine ⟨?_, ?_, by norm_num⟩ <;>
    norm_num [GPURippleSimulation.waveSimulationFn]

/-- C6 amended: the CPU texture stage satisfies the claimed invariant at
every cell — including border cells — with neighbor heights clamped at
the grid border, read from the exposed height field itself; the GPU path
stores, at interior cells, the gradients of the *source* (pre-step)
heights, and writes normals (0, 1) at boundary cells. -/
theorem c6_normal_channel_forms (res : ℕ) (h : ℕ → ℕ → K)
    (p : GPURippleSimulation.Params K) (src : ℕ → ℕ → Cell4 K) (x y : ℕ) :
    (RippleSimulation.textureRecord res h x y).b =
      ((if 0 < x then h (x - 1) y else h x y) -
       (if x < res - 1 then h (x + 1) y else h x y)) * 2 ∧
    (RippleSimulation.textureRecord res h x y).a =
      ((if 0 < y then h x (y - 1) else h x y) -
       (if y < res - 1 then h x (y + 1) else h x y)) * 2 ∧
    (x ≠ 0 → ¬ p.resolution - 1 ≤ x → y ≠ 0 → ¬ p.resolution - 1 ≤ y →
      (GPURippleSimulation.waveSimulationFn p src x y).b =
        ((src (x - 1) y).r - (src (x + 1) y).r) * 2 ∧
      (GPURippleSimulation.waveSimulationFn p src x y).a =
        ((src x (y - 1)).r - (src x (y + 1)).r) * 2) ∧
    (x = 0 ∨ p.resolution - 1 ≤ x ∨ y = 0 ∨ p.resolution - 1 ≤ y →
      (GPURippleSimulation.waveSimulationFn p src x y).b = 0 ∧
      (GPURippleSimulation.waveSimulationFn p src x y).a = 1) := by
  refine ⟨rfl, rfl, ?_, ?_⟩
  · intro hx hx2 hy hy2
    unfold GPURippleSimulation.waveSimulationFn
    rw [if_neg (by omega)]
    exact ⟨rfl, rfl⟩
  · intro hb
    unfold GPURippleSimulation.waveSimulationFn
    rw [if_pos hb]
    exact ⟨rfl, rfl⟩

/-- Witness for C6 amended on a 4×4 grid: the CPU record at interior cell
(2, 1) and at corner cell (0, 0), where the clamped (replicated) neighbor
reads bite; the GPU kernel at interior cell (2, 1) and at boundary cell
(0, 1). -/
theorem c6_witness :
    ((2 : ℕ) ≠ 0 ∧ ¬ (4 : ℕ) - 1 ≤ 2 ∧ (1 : ℕ) ≠ 0 ∧ ¬ (4 : ℕ) - 1 ≤ 1 ∧
      ((0 : ℕ) = 0 ∨ (4 : ℕ) - 1 ≤ 0 ∨ (1 : ℕ) = 0 ∨ (4 : ℕ) - 1 ≤ 1)) ∧
    (RippleSimulation.textureRecord 4 (fun x _ => (x : ℚ)) 2 1).b = -4 ∧
    (RippleSimulation.textureRecord 4 (fun x _ => (x : ℚ)) 0 0).b = -2 ∧
    (RippleSimulation.textureRecord 4 (fun x _ => (x : ℚ)) 0 0).a = 0 ∧
    (GPURippleSimulation.waveSimulationFn (K := ℚ) ⟨4, 3 / 10, 199 / 200⟩
        (fun x _ => ⟨(x : ℚ), 0, 0, 0⟩) 2 1).b = -4 ∧
    (GPURippleSimulation.waveSimulationFn (K := ℚ) ⟨4, 3 / 10, 199 / 200⟩
        (fun x _ => ⟨(x : ℚ), 0, 0, 0⟩) 0 1).b = 0 ∧
    (GPURippleSimulation.waveSimulationFn (K := ℚ) ⟨4, 3 / 10, 199 / 200⟩
        (fun x _ => ⟨(x : ℚ), 0, 0, 0⟩) 0 1).a = 1 := by
  have h21 := c6_normal_channel_forms (K := ℚ) 4 (fun x _ => (x : ℚ))
    ⟨4, 3 / 10, 199 / 200⟩ (fun x _ => ⟨(x : ℚ), 0, 0, 0⟩) 2 1
  have h00 := c6_normal_channel_forms (K := ℚ) 4 (fun x _ => (x : ℚ))
    ⟨4, 3 / 10, 199 / 200⟩ (fun x _ => ⟨(x : ℚ), 0, 0, 0⟩) 0 0
  have h01 := c6_normal_channel_forms (K := ℚ) 4 (fun x _ => (x : ℚ))
    ⟨4, 3 / 10, 199 / 200⟩ (fun x _ => ⟨(x : ℚ), 0, 0, 0⟩) 0 1
  have hgpuInt := h21.2.2.1 (by norm_num) (by norm_num) (by norm_num) (by norm_num)
  have hgpuBnd := h01.2.2.2 (Or.inl rfl)
  refine ⟨by norm_num, ?_, ?_, ?_, ?_, ?_, ?_⟩
  · rw [h21.1]; norm_num
  · rw [h00.1]; norm_num
  · rw [h00.2.1]; norm_num
  · rw [hgpuInt.1]; norm_num
  · rw [hgpuBnd.1]
  · rw [hgpuBnd.2]

/-- Auxiliary: one CPU update written out as a structure literal. -/
theorem cpu_update_apply (sqrt : K → K) (p : RippleSimulation.Params K)
    (s : RippleSimulation.State K) :
    RippleSimulation.update sqrt p s =
      ⟨RippleSimulation.nextHeight p
          (RippleSimulation.injectRipples sqrt p.resolution s.ripples s.heightCurrent)
          s.heightPrevious s.heightNext,
        RippleSimulation.injectRipples sqrt p.resolution s.ripples s.heightCurrent,
        s.heightPrevious, []⟩ := rfl

/-- Auxiliary: one GPU update from parity 0 written out as a structure
literal. -/
theorem gpu_update_ping0_apply (sqrt : K → K) (p : GPURippleSimulation.Params K)
    (A B : ℕ → ℕ → Cell4 K) (imps : List (K × K × K))
    (last : Option (ℕ → ℕ → Cell4 K)) :
    GPURippleSimulation.update sqrt p ⟨A, B, 0, imps, last⟩ =
      ⟨imps.foldl
          (fun tex imp => GPURippleSimulation.impactFn sqrt imp.1 imp.2.1 imp.2.2 tex) A,
        GPURippleSimulation.waveSimulationFn p
          (imps.foldl
            (fun tex imp => GPURippleSimulation.impactFn sqrt imp.1 imp.2.1 imp.2.2 tex) A),
        1, [],
        some (GPURippleSimulation.waveSimulationFn p
          (imps.foldl
            (fun tex imp => GPURippleSimulation.impactFn sqrt imp.1 imp.2.1 imp.2.2 tex) A))⟩ :=
  rfl

/-- Auxiliary: the exposed texture after a computed update is the
recorded destination. -/
theorem getHeightTexture_some (A B : ℕ → ℕ → Cell4 K) (pp : ℕ)
    (imps : List (K × K × K)) (dst : ℕ → ℕ → Cell4 K) :
    GPURippleSimulation.getHeightTexture ⟨A, B, pp, imps, some dst⟩ = dst := rfl

/-- Auxiliary: the square root of 4. -/
theorem real_sqrt_four : Real.sqrt 4 = 2 := by
  rw [show (4 : ℝ) = 2 ^ 2 by norm_num, Real.sqrt_sq (by norm_num)]

/-- Auxiliary: the square root of 2 lies strictly between 1.41 and 1.42. -/
theorem real_sqrt_two_bounds :
    (1.41 : ℝ) < Real.sqrt 2 ∧ Real.sqrt 2 < 1.42 := by
  constructor <;>
    nlinarith [Real.sq_sqrt (by norm_num : (2 : ℝ) ≥ 0), Real.sqrt_nonneg 2]

/-- Auxiliary: the square root of 2 is below the impact radius 3. -/
theorem real_sqrt_two_lt_three : Real.sqrt 2 < 3 := by
  nlinarith [Real.sq_sqrt (by norm_num : (2 : ℝ) ≥ 0), Real.sqrt_nonneg 2]

/-- Auxiliary: the deposits the CPU injection loop adds for the pending
ripple (0.5, 0.5, 1) on a 16×16 grid — strength 1 at the center cell
(8, 8), 4/9 at distance 1, 1/9 at distance 2, (1 − √2/3)² at the
diagonals. -/
theorem bump16_deposit_values :
    RippleSimulation.rippleDeposit Real.sqrt 16 ((1 : ℝ) / 2, 1 / 2, 1) 8 8 = 1 ∧
    RippleSimulation.rippleDeposit Real.sqrt 16 ((1 : ℝ) / 2, 1 / 2, 1) 7 8 = 4 / 9 ∧
    RippleSimulation.rippleDeposit Real.sqrt 16 ((1 : ℝ) / 2, 1 / 2, 1) 9 8 = 4 / 9 ∧
    RippleSimulation.rippleDeposit Real.sqrt 16 ((1 : ℝ) / 2, 1 / 2, 1) 8 7 = 4 / 9 ∧
    RippleSimulation.rippleDeposit Real.sqrt 16 ((1 : ℝ) / 2, 1 / 2, 1) 8 9 = 4 / 9 ∧
    RippleSimulation.rippleDeposit Real.sqrt 16 ((1 : ℝ) / 2, 1 / 2, 1) 6 8 = 1 / 9 ∧
    RippleSimulation.rippleDeposit Real.sqrt 16 ((1 : ℝ) / 2, 1 / 2, 1) 10 8 = 1 / 9 ∧
    RippleSimulation.rippleDeposit Real.sqrt 16 ((1 : ℝ) / 2, 1 / 2, 1) 8 6 = 1 / 9 ∧
    RippleSimulation.rippleDeposit Real.sqrt 16 ((1 : ℝ) / 2, 1 / 2, 1) 8 10 = 1 / 9 ∧
    RippleSimulation.rippleDeposit Real.sqrt 16 ((1 : ℝ) / 2, 1 / 2, 1) 7 7 =
      (1 - Real.sqrt 2 / 3) * (1 - Real.sqrt 2 / 3) ∧
    RippleSimulation.rippleDeposit Real.sqrt 16 ((1 : ℝ) / 2, 1 / 2, 1) 9 7 =
      (1 - Real.sqrt 2 / 3) * (1 - Real.sqrt 2 / 3) ∧
    RippleSimulation.rippleDeposit Real.sqrt 16 ((1 : ℝ) / 2, 1 / 2, 1) 7 9 =
      (1 - Real.sqrt 2 / 3) * (1 - Real.sqrt 2 / 3) ∧
    RippleSimulation.rippleDeposit Real.sqrt 16 ((1 : ℝ) / 2, 1 / 2, 1) 9 9 =
      (1 - Real.sqrt 2 / 3) * (1 - Real.sqrt 2 / 3) := by
  refine ⟨?_, ?_, ?_, ?_, ?_, ?_, ?_, ?_, ?_, ?_, ?_, ?_, ?_⟩ <;>
    norm_num [RippleSimulation.rippleDeposit, real_sqrt_four,
      real_sqrt_two_lt_three.le]

/-- Auxiliary: heights after one CPU step at resolution 16, waveSpeed
0.3, damping 0.99, edge fade disabled, for the strength-1 impact at grid
cell (8, 8) injected into the all-zero state — the center reaches
891/500 and the four immediate neighbors share one common value. -/
theorem cpu16_after_one_step :
    (RippleSimulation.update Real.sqrt ⟨16, 3 / 10, 99 / 100, 0, 23 / 25⟩
        (RippleSimulation.addRipple 0 0 1
          ⟨fun _ _ => 0, fun _ _ => 0, fun _ _ => 0, []⟩)).heightCurrent 8 8 =
      891 / 500 ∧
    (RippleSimulation.update Real.sqrt ⟨16, 3 / 10, 99 / 100, 0, 23 / 25⟩
        (RippleSimulation.addRipple 0 0 1
          ⟨fun _ _ => 0, fun _ _ => 0, fun _ _ => 0, []⟩)).heightCurrent 7 8 =
      (2 * (4 / 9) + 9 / 100 * (1 + 1 / 9 +
        (1 - Real.sqrt 2 / 3) * (1 - Real.sqrt 2 / 3) +
        (1 - Real.sqrt 2 / 3) * (1 - Real.sqrt 2 / 3) - 4 * (4 / 9))) * (99 / 100) ∧
    (RippleSimulation.update Real.sqrt ⟨16, 3 / 10, 99 / 100, 0, 23 / 25⟩
        (RippleSimulation.addRipple 0 0 1
          ⟨fun _ _ => 0, fun _ _ => 0, fun _ _ => 0, []⟩)).heightCurrent 9 8 =
      (2 * (4 / 9) + 9 / 100 * (1 + 1 / 9 +
        (1 - Real.sqrt 2 / 3) * (1 - Real.sqrt 2 / 3) +
        (1 - Real.sqrt 2 / 3) * (1 - Real.sqrt 2 / 3) - 4 * (4 / 9))) * (99 / 100) ∧
    (RippleSimulation.update Real.sqrt ⟨16, 3 / 10, 99 / 100, 0, 23 / 25⟩
        (RippleSimulation.addRipple 0 0 1
          ⟨fun _ _ => 0, fun _ _ => 0, fun _ _ => 0, []⟩)).heightCurrent 8 7 =
      (2 * (4 / 9) + 9 / 100 * (1 + 1 / 9 +
        (1 - Real.sqrt 2 / 3) * (1 - Real.sqrt 2 / 3) +
        (1 - Real.sqrt 2 / 3) * (1 - Real.sqrt 2 / 3) - 4 * (4 / 9))) * (99 / 100) ∧
    (RippleSimulation.update Real.sqrt ⟨16, 3 / 10, 99 / 100, 0, 23 / 25⟩
        (RippleSimulation.addRipple 0 0 1
          ⟨fun _ _ => 0, fun _ _ => 0, fun _ _ => 0, []⟩)).heightCurrent 8 9 =
      (2 * (4 / 9) + 9 / 100 * (1 + 1 / 9 +
        (1 - Real.sqrt 2 / 3) * (1 - Real.sqrt 2 / 3) +
        (1 - Real.sqrt 2 / 3) * (1 - Real.sqrt 2 / 3) - 4 * (4 / 9))) * (99 / 100) := by
  have hadd : RippleSimulation.addRipple (0 : ℝ) 0 1
      ⟨fun _ _ => 0, fun _ _ => 0, fun _ _ => 0, []⟩ =
      ⟨fun _ _ => 0, fun _ _ => 0, fun _ _ => 0, [(1 / 2, 1 / 2, 1)]⟩ := by
    unfold RippleSimulation.addRipple
    rw [if_pos (by norm_num)]
    norm_num
  have hinj : ∀ px py : ℕ,
      RippleSimulation.injectRipples Real.sqrt 16 [((1 : ℝ) / 2, 1 / 2, 1)]
        (fun _ _ => 0) px py =
      RippleSimulation.rippleDeposit Real.sqrt 16 ((1 : ℝ) / 2, 1 / 2, 1) px py := by
    intro px py
    simp [RippleSimulation.injectRipples]
  obtain ⟨d88, d78, d98, d87, d89, d68, d108, d86, d810, d77, d97, d79, d99⟩ :=
    bump16_deposit_values
  refine ⟨?_, ?_, ?_, ?_, ?_⟩ <;>
    · rw [hadd, cpu_update_apply]
      norm_num [RippleSimulation.nextHeight, RippleSimulation.getEdgeFactor,
        hinj 6 8, hinj 7 8, hinj 8 8, hinj 9 8, hinj 10 8,
        hinj 8 6, hinj 8 7, hinj 8 9, hinj 8 10,
        hinj 7 7, hinj 9 7, hinj 7 9, hinj 9 9,
        d88, d78, d98, d87, d89, d68, d108, d86, d810, d77, d97, d79, d99]
      try ring

/-- C1 counterexample: with resolution 16, waveSpeed 0.3, damping 0.99
and edge fade disabled, injecting a strength-1 impact at grid cell (8, 8)
into the all-zero CPU state and stepping once yields height 891/500 =
1.782 at (8, 8) — not a value strictly below 1.  The CPU leapfrog form
doubles a fresh impulse because the previous buffer is still zero. -/
theorem c1_counterexample :
    (RippleSimulation.update Real.sqrt ⟨16, 3 / 10, 99 / 100, 0, 23 / 25⟩
        (RippleSimulation.addRipple 0 0 1
          ⟨fun _ _ => 0, fun _ _ => 0, fun _ _ => 0, []⟩)).heightCurrent 8 8 =
      891 / 500 ∧
    ¬ ((RippleSimulation.update Real.sqrt ⟨16, 3 / 10, 99 / 100, 0, 23 / 25⟩
        (RippleSimulation.addRipple 0 0 1
          ⟨fun _ _ => 0, fun _ _ => 0, fun _ _ => 0, []⟩)).heightCurrent 8 8 < 1) :=
  ⟨cpu16_after_one_step.1, by rw [cpu16_after_one_step.1]; norm_num⟩

set_option maxHeartbeats 1600000 in
/-- C1 amended: with the same parameters, the GPU velocity-form path
satisfies the full claim — the exposed height at (8, 8) is 401/500 =
0.802, strictly below 1 and strictly above each of its 4 immediate
neighbors — while in the CPU leapfrog path the center, although 891/500
rather than below 1, still strictly exceeds each of its 4 immediate
neighbors. -/
theorem c1_amended_one_step_profile :
    ((GPURippleSimulation.getHeightTexture
        (GPURippleSimulation.update Real.sqrt ⟨16, 3 / 10, 99 / 100⟩
          (GPURippleSimulation.addRipple ⟨16, 3 / 10, 99 / 100⟩ 0 0 1
            ⟨fun _ _ => ⟨0, 0, 0, 0⟩, fun _ _ => ⟨0, 0, 0, 0⟩, 0, [], none⟩))) 8 8).r =
      401 / 500 ∧
    ((GPURippleSimulation.getHeightTexture
        (GPURippleSimulation.update Real.sqrt ⟨16, 3 / 10, 99 / 100⟩
          (GPURippleSimulation.addRipple ⟨16, 3 / 10, 99 / 100⟩ 0 0 1
            ⟨fun _ _ => ⟨0, 0, 0, 0⟩, fun _ _ => ⟨0, 0, 0, 0⟩, 0, [], none⟩))) 8 8).r < 1 ∧
    ((GPURippleSimulation.getHeightTexture
        (GPURippleSimulation.update Real.sqrt ⟨16, 3 / 10, 99 / 100⟩
          (GPURippleSimulation.addRipple ⟨16, 3 / 10, 99 / 100⟩ 0 0 1
            ⟨fun _ _ => ⟨0, 0, 0, 0⟩, fun _ _ => ⟨0, 0, 0, 0⟩, 0, [], none⟩))) 7 8).r <
      ((GPURippleSimulation.getHeightTexture
        (GPURippleSimulation.update Real.sqrt ⟨16, 3 / 10, 99 / 100⟩
          (GPURippleSimulation.addRipple ⟨16, 3 / 10, 99 / 100⟩ 0 0 1
            ⟨fun _ _ => ⟨0, 0, 0, 0⟩, fun _ _ => ⟨0, 0, 0, 0⟩, 0, [], none⟩))) 8 8).r ∧
    ((GPURippleSimulation.getHeightTexture
        (GPURippleSimulation.update Real.sqrt ⟨16, 3 / 10, 99 / 100⟩
          (GPURippleSimulation.addRipple ⟨16, 3 / 10, 99 / 100⟩ 0 0 1
            ⟨fun _ _ => ⟨0, 0, 0, 0⟩, fun _ _ => ⟨0, 0, 0, 0⟩, 0, [], none⟩))) 9 8).r <
      ((GPURippleSimulation.getHeightTexture
        (GPURippleSimulation.update Real.sqrt ⟨16, 3 / 10, 99 / 100⟩
          (GPURippleSimulation.addRipple ⟨16, 3 / 10, 99 / 100⟩ 0 0 1
            ⟨fun _ _ => ⟨0, 0, 0, 0⟩, fun _ _ => ⟨0, 0, 0, 0⟩, 0, [], none⟩))) 8 8).r ∧
    ((GPURippleSimulation.getHeightTexture
        (GPURippleSimulation.update Real.sqrt ⟨16, 3 / 10, 99 / 100⟩
          (GPURippleSimulation.addRipple ⟨16, 3 / 10, 99 / 100⟩ 0 0 1
            ⟨fun _ _ => ⟨0, 0, 0, 0⟩, fun _ _ => ⟨0, 0, 0, 0⟩, 0, [], none⟩))) 8 7).r <
      ((GPURippleSimulation.getHeightTexture
        (GPURippleSimulation.update Real.sqrt ⟨16, 3 / 10, 99 / 100⟩
          (GPURippleSimulation.addRipple ⟨16, 3 / 10, 99 / 100⟩ 0 0 1
            ⟨fun _ _ => ⟨0, 0, 0, 0⟩, fun _ _ => ⟨0, 0, 0, 0⟩, 0, [], none⟩))) 8 8).r ∧
    ((GPURippleSimulation.getHeightTexture
        (GPURippleSimulation.update Real.sqrt ⟨16, 3 / 10, 99 / 100⟩
          (GPURippleSimulation.addRipple ⟨16, 3 / 10, 99 / 100⟩ 0 0 1
            ⟨fun _ _ => ⟨0, 0, 0, 0⟩, fun _ _ => ⟨0, 0, 0, 0⟩, 0, [], none⟩))) 8 9).r <
      ((GPURippleSimulation.getHeightTexture
        (GPURippleSimulation.update Real.sqrt ⟨16, 3 / 10, 99 / 100⟩
          (GPURippleSimulation.addRipple ⟨16, 3 / 10, 99 / 100⟩ 0 0 1
            ⟨fun _ _ => ⟨0, 0, 0, 0⟩, fun _ _ => ⟨0, 0, 0, 0⟩, 0, [], none⟩))) 8 8).r ∧
    (RippleSimulation.update Real.sqrt ⟨16, 3 / 10, 99 / 100, 0, 23 / 25⟩
        (RippleSimulation.addRipple 0 0 1
          ⟨fun _ _ => 0, fun _ _ => 0, fun _ _ => 0, []⟩)).heightCurrent 7 8 <
      (RippleSimulation.update Real.sqrt ⟨16, 3 / 10, 99 / 100, 0, 23 / 25⟩
        (RippleSimulation.addRipple 0 0 1
          ⟨fun _ _ => 0, fun _ _ => 0, fun _ _ => 0, []⟩)).heightCurrent 8 8 ∧
    (RippleSimulation.update Real.sqrt ⟨16, 3 / 10, 99 / 100, 0, 23 / 25⟩
        (RippleSimulation.addRipple 0 0 1
          ⟨fun _ _ => 0, fun _ _ => 0, fun _ _ => 0, []⟩)).heightCurrent 9 8 <
      (RippleSimulation.update Real.sqrt ⟨16, 3 / 10, 99 / 100, 0, 23 / 25⟩
        (RippleSimulation.addRipple 0 0 1
          ⟨fun _ _ => 0, fun _ _ => 0, fun _ _ => 0, []⟩)).heightCurrent 8 8 ∧
    (RippleSimulation.update Real.sqrt ⟨16, 3 / 10, 99 / 100, 0, 23 / 25⟩
        (RippleSimulation.addRipple 0 0 1
          ⟨fun _ _ => 0, fun _ _ => 0, fun _ _ => 0, []⟩)).heightCurrent 8 7 <
      (RippleSimulation.update Real.sqrt ⟨16, 3 / 10, 99 / 100, 0, 23 / 25⟩
        (RippleSimulation.addRipple 0 0 1
          ⟨fun _ _ => 0, fun _ _ => 0, fun _ _ => 0, []⟩)).heightCurrent 8 8 ∧
    (RippleSimulation.update Real.sqrt ⟨16, 3 / 10, 99 / 100, 0, 23 / 25⟩
        (RippleSimulation.addRipple 0 0 1
          ⟨fun _ _ => 0, fun _ _ => 0, fun _ _ => 0, []⟩)).heightCurrent 8 9 <
      (RippleSimulation.update Real.sqrt ⟨16, 3 / 10, 99 / 100, 0, 23 / 25⟩
        (RippleSimulation.addRipple 0 0 1
          ⟨fun _ _ => 0, fun _ _ => 0, fun _ _ => 0, []⟩)).heightCurrent 8 8 := by
  have hadd : GPURippleSimulation.addRipple (K := ℝ) ⟨16, 3 / 10, 99 / 100⟩ 0 0 1
      ⟨fun _ _ => ⟨0, 0, 0, 0⟩, fun _ _ => ⟨0, 0, 0, 0⟩, 0, [], none⟩ =
      ⟨fun _ _ => ⟨0, 0, 0, 0⟩, fun _ _ => ⟨0, 0, 0, 0⟩, 0, [(8, 8, 1)], none⟩ := by
    unfold GPURippleSimulation.addRipple
    rw [if_pos (by norm_num)]
    norm_num
  have hexp : GPURippleSimulation.getHeightTexture
      (GPURippleSimulation.update Real.sqrt ⟨16, 3 / 10, 99 / 100⟩
        (GPURippleSimulation.addRipple ⟨16, 3 / 10, 99 / 100⟩ 0 0 1
          ⟨fun _ _ => ⟨0, 0, 0, 0⟩, fun _ _ => ⟨0, 0, 0, 0⟩, 0, [], none⟩)) =
      GPURippleSimulation.waveSimulationFn ⟨16, 3 / 10, 99 / 100⟩
        (GPURippleSimulation.impactFn Real.sqrt 8 8 1 (fun _ _ => ⟨0, 0, 0, 0⟩)) := by
    rw [hadd, gpu_update_ping0_apply, getHeightTexture_some]
    simp only [List.foldl_cons, List.foldl_nil]
  rw [hexp]
  set T : ℕ → ℕ → Cell4 ℝ :=
    GPURippleSimulation.impactFn Real.sqrt 8 8 1 (fun _ _ => ⟨0, 0, 0, 0⟩) with hTdef
  have hs2 := real_sqrt_two_bounds
  have hs2sq : Real.sqrt 2 * Real.sqrt 2 = 2 := Real.mul_self_sqrt (by norm_num)
  have hTg : ∀ x y : ℕ, (T x y).g = 0 := by
    intro x y
    rw [hTdef]
    simp only [GPURippleSimulation.impactFn]
    split_ifs <;> rfl
  have hT88 : (T 8 8).r = 1 := by
    rw [hTdef]; norm_num [GPURippleSimulation.impactFn]
  have hT78 : (T 7 8).r = 4 / 9 := by
    rw [hTdef]; norm_num [GPURippleSimulation.impactFn]
  have hT98 : (T 9 8).r = 4 / 9 := by
    rw [hTdef]; norm_num [GPURippleSimulation.impactFn]
  have hT87 : (T 8 7).r = 4 / 9 := by
    rw [hTdef]; norm_num [GPURippleSimulation.impactFn]
  have hT89 : (T 8 9).r = 4 / 9 := by
    rw [hTdef]; norm_num [GPURippleSimulation.impactFn]
  have hT68 : (T 6 8).r = 1 / 9 := by
    rw [hTdef]; norm_num [GPURippleSimulation.impactFn, real_sqrt_four]
  have hT108 : (T 10 8).r = 1 / 9 := by
    rw [hTdef]; norm_num [GPURippleSimulation.impactFn, real_sqrt_four]
  have hT86 : (T 8 6).r = 1 / 9 := by
    rw [hTdef]; norm_num [GPURippleSimulation.impactFn, real_sqrt_four]
  have hT810 : (T 8 10).r = 1 / 9 := by
    rw [hTdef]; norm_num [GPURippleSimulation.impactFn, real_sqrt_four]
  have hT77 : (T 7 7).r = (1 - Real.sqrt 2 / 3) * (1 - Real.sqrt 2 / 3) := by
    rw [hTdef]; norm_num [GPURippleSimulation.impactFn, real_sqrt_two_lt_three]
  have hT97 : (T 9 7).r = (1 - Real.sqrt 2 / 3) * (1 - Real.sqrt 2 / 3) := by
    rw [hTdef]; norm_num [GPURippleSimulation.impactFn, real_sqrt_two_lt_three]
  have hT79 : (T 7 9).r = (1 - Real.sqrt 2 / 3) * (1 - Real.sqrt 2 / 3) := by
    rw [hTdef]; norm_num [GPURippleSimulation.impactFn, real_sqrt_two_lt_three]
  have hT99 : (T 9 9).r = (1 - Real.sqrt 2 / 3) * (1 - Real.sqrt 2 / 3) := by
    rw [hTdef]; norm_num [GPURippleSimulation.impactFn, real_sqrt_two_lt_three]
  have hcpu := cpu16_after_one_step
  refine ⟨?_, ?_, ?_, ?_, ?_, ?_, ?_, ?_, ?_, ?_⟩
  · norm_num [GPURippleSimulation.waveSimulationFn, hTg,
      hT88, hT78, hT98, hT87, hT89, hT68, hT108, hT86, hT810,
      hT77, hT97, hT79, hT99]
  · norm_num [GPURippleSimulation.waveSimulationFn, hTg,
      hT88, hT78, hT98, hT87, hT89, hT68, hT108, hT86, hT810,
      hT77, hT97, hT79, hT99]
  · norm_num [GPURippleSimulation.waveSimulationFn, hTg,
      hT88, hT78, hT98, hT87, hT89, hT68, hT108, hT86, hT810,
      hT77, hT97, hT79, hT99]
    nlinarith [hs2.1, hs2.2, hs2sq]
  · norm_num [GPURippleSimulation.waveSimulationFn, hTg,
      hT88, hT78, hT98, hT87, hT89, hT68, hT108, hT86, hT810,
      hT77, hT97, hT79, hT99]
    nlinarith [hs2.1, hs2.2, hs2sq]
  · norm_num [GPURippleSimulation.waveSimulationFn, hTg,
      hT88, hT78, hT98, hT87, hT89, hT68, hT108, hT86, hT810,
      hT77, hT97, hT79, hT99]
    nlinarith [hs2.1, hs2.2, hs2sq]
  · norm_num [GPURippleSimulation.waveSimulationFn, hTg,
      hT88, hT78, hT98, hT87, hT89, hT68, hT108, hT86, hT810,
      hT77, hT97, hT79, hT99]
    nlinarith [hs2.1, hs2.2, hs2sq]
  · rw [hcpu.1, hcpu.2.1]
    nlinarith [hs2.1, hs2.2, hs2sq]
  · rw [hcpu.1, hcpu.2.2.1]
    nlinarith [hs2.1, hs2.2, hs2sq]
  · rw [hcpu.1, hcpu.2.2.2.1]
    nlinarith [hs2.1, hs2.2, hs2sq]
  · rw [hcpu.1, hcpu.2.2.2.2]
    nlinarith [hs2.1, hs2.2, hs2sq]

/-- Auxiliary: the square root of 8 is within the impact radius 3. -/
theorem real_sqrt_eight_le_three : Real.sqrt 8 ≤ 3 := by
  nlinarith [Real.sq_sqrt (by norm_num : (8 : ℝ) ≥ 0), Real.sqrt_nonneg 8]

/-- Auxiliary: the square root of 5 is within the impact radius 3. -/
theorem real_sqrt_five_le_three : Real.sqrt 5 ≤ 3 := by
  nlinarith [Real.sq_sqrt (by norm_num : (5 : ℝ) ≥ 0), Real.sqrt_nonneg 5]

/-- Auxiliary: the square root of 13 exceeds the impact radius 3. -/
theorem real_sqrt_thirteen_not_le : ¬ Real.sqrt 13 ≤ 3 := by
  rw [not_le]
  nlinarith [Real.sq_sqrt (by norm_num : (13 : ℝ) ≥ 0), Real.sqrt_nonneg 13]

/-- Auxiliary: rational bounds on the square root of 8. -/
theorem real_sqrt_eight_bounds :
    (2.8284 : ℝ) < Real.sqrt 8 ∧ Real.sqrt 8 < 2.8285 := by
  constructor <;>
    nlinarith [Real.sq_sqrt (by norm_num : (8 : ℝ) ≥ 0), Real.sqrt_nonneg 8]

/-- Auxiliary: rational bounds on the square root of 5. -/
theorem real_sqrt_five_bounds :
    (2.2360 : ℝ) < Real.sqrt 5 ∧ Real.sqrt 5 < 2.2361 := by
  constructor <;>
    nlinarith [Real.sq_sqrt (by norm_num : (5 : ℝ) ≥ 0), Real.sqrt_nonneg 5]

/-- Auxiliary: an interior cell that is not touched by the wave loop does
not exist; cells outside the interior window keep the stale `heightNext`
buffer contents. -/
theorem nextHeight_outside (p : RippleSimulation.Params K)
    (cur prev nextOld : ℕ → ℕ → K) (x y : ℕ)
    (h : ¬ (1 ≤ x ∧ x < p.resolution - 1 ∧ 1 ≤ y ∧ y < p.resolution - 1)) :
    RippleSimulation.nextHeight p cur prev nextOld x y = nextOld x y := by
  unfold RippleSimulation.nextHeight
  rw [if_neg h]

set_option maxHeartbeats 1000000 in
/-- C3 counterexample: a reachable CPU state with damping 0.985 < 1 and
an empty pending queue whose sum of squared heights strictly increases on
the next step.  Start from the all-zero resolution-3 simulation, call
`addRipple(10, 10, 1)` (grid cell (3, 3), clipped blob) and `update`
once; the recorded state has empty queue, and one more `update` raises
the energy from about 0.000239 to about 0.000400 — the leapfrog form
amplifies a fresh impulse since `previous` still lags far below
`current`. -/
theorem c3_counterexample :
    (RippleSimulation.update Real.sqrt ⟨3, 3 / 10, 197 / 200, 25, 23 / 25⟩
        (RippleSimulation.addRipple 10 10 1
          ⟨fun _ _ => 0, fun _ _ => 0, fun _ _ => 0, []⟩)).ripples = [] ∧
    (197 / 200 : ℝ) < 1 ∧
    RippleSimulation.energy 3
        (RippleSimulation.update Real.sqrt ⟨3, 3 / 10, 197 / 200, 25, 23 / 25⟩
          (RippleSimulation.addRipple 10 10 1
            ⟨fun _ _ => 0, fun _ _ => 0, fun _ _ => 0, []⟩)).heightCurrent <
      RippleSimulation.energy 3
        (RippleSimulation.update Real.sqrt ⟨3, 3 / 10, 197 / 200, 25, 23 / 25⟩
          (RippleSimulation.update Real.sqrt ⟨3, 3 / 10, 197 / 200, 25, 23 / 25⟩
            (RippleSimulation.addRipple 10 10 1
              ⟨fun _ _ => 0, fun _ _ => 0, fun _ _ => 0, []⟩))).heightCurrent := by
  have hadd : RippleSimulation.addRipple (10 : ℝ) 10 1
      ⟨fun _ _ => 0, fun _ _ => 0, fun _ _ => 0, []⟩ =
      ⟨fun _ _ => 0, fun _ _ => 0, fun _ _ => 0, [(1, 1, 1)]⟩ := by
    unfold RippleSimulation.addRipple
    rw [if_pos (by norm_num)]
    norm_num
  have e11 : RippleSimulation.injectRipples Real.sqrt 3 [(1 : ℝ × ℝ × ℝ)]
      (fun _ _ => 0) 1 1 = (1 - Real.sqrt 8 / 3) * (1 - Real.sqrt 8 / 3) := by
    norm_num [RippleSimulation.injectRipples, RippleSimulation.rippleDeposit,
      real_sqrt_eight_le_three]
  have e21 : RippleSimulation.injectRipples Real.sqrt 3 [(1 : ℝ × ℝ × ℝ)]
      (fun _ _ => 0) 2 1 = (1 - Real.sqrt 5 / 3) * (1 - Real.sqrt 5 / 3) := by
    norm_num [RippleSimulation.injectRipples, RippleSimulation.rippleDeposit,
      real_sqrt_five_le_three]
  have e12 : RippleSimulation.injectRipples Real.sqrt 3 [(1 : ℝ × ℝ × ℝ)]
      (fun _ _ => 0) 1 2 = (1 - Real.sqrt 5 / 3) * (1 - Real.sqrt 5 / 3) := by
    norm_num [RippleSimulation.injectRipples, RippleSimulation.rippleDeposit,
      real_sqrt_five_le_three]
  have e01 : RippleSimulation.injectRipples Real.sqrt 3 [(1 : ℝ × ℝ × ℝ)]
      (fun _ _ => 0) 0 1 = 0 := by
    norm_num [RippleSimulation.injectRipples, RippleSimulation.rippleDeposit,
      real_sqrt_thirteen_not_le]
  have e10 : RippleSimulation.injectRipples Real.sqrt 3 [(1 : ℝ × ℝ × ℝ)]
      (fun _ _ => 0) 1 0 = 0 := by
    norm_num [RippleSimulation.injectRipples, RippleSimulation.rippleDeposit,
      real_sqrt_thirteen_not_le]
  have hc1 : (RippleSimulation.update Real.sqrt ⟨3, 3 / 10, 197 / 200, 25, 23 / 25⟩
      (RippleSimulation.addRipple 10 10 1
        ⟨fun _ _ => 0, fun _ _ => 0, fun _ _ => 0, []⟩)).heightCurrent =
      RippleSimulation.nextHeight ⟨3, 3 / 10, 197 / 200, 25, 23 / 25⟩
        (RippleSimulation.injectRipples Real.sqrt 3 [(1 : ℝ × ℝ × ℝ)] (fun _ _ => 0))
        (fun _ _ => 0) (fun _ _ => 0) := by
    rw [hadd, cpu_update_apply]
    rfl
  have hprev1 : (RippleSimulation.update Real.sqrt ⟨3, 3 / 10, 197 / 200, 25, 23 / 25⟩
      (RippleSimulation.addRipple 10 10 1
        ⟨fun _ _ => 0, fun _ _ => 0, fun _ _ => 0, []⟩)).heightPrevious =
      RippleSimulation.injectRipples Real.sqrt 3 [(1 : ℝ × ℝ × ℝ)] (fun _ _ => 0) := by
    rw [hadd, cpu_update_apply]
    rfl
  have hnext1 : (RippleSimulation.update Real.sqrt ⟨3, 3 / 10, 197 / 200, 25, 23 / 25⟩
      (RippleSimulation.addRipple 10 10 1
        ⟨fun _ _ => 0, fun _ _ => 0, fun _ _ => 0, []⟩)).heightNext =
      fun _ _ => (0 : ℝ) := by
    rw [hadd, cpu_update_apply]
  have hrip1 : (RippleSimulation.update Real.sqrt ⟨3, 3 / 10, 197 / 200, 25, 23 / 25⟩
      (RippleSimulation.addRipple 10 10 1
        ⟨fun _ _ => 0, fun _ _ => 0, fun _ _ => 0, []⟩)).ripples = [] := by
    rw [hadd, cpu_update_apply]
  have hcur1 : ∀ x y : ℕ,
      (RippleSimulation.update Real.sqrt ⟨3, 3 / 10, 197 / 200, 25, 23 / 25⟩
        (RippleSimulation.addRipple 10 10 1
          ⟨fun _ _ => 0, fun _ _ => 0, fun _ _ => 0, []⟩)).heightCurrent x y =
      (if x = 1 ∧ y = 1 then
        ((2 * ((1 - Real.sqrt 8 / 3) * (1 - Real.sqrt 8 / 3)) +
            9 / 100 * (2 * ((1 - Real.sqrt 5 / 3) * (1 - Real.sqrt 5 / 3)) -
              4 * ((1 - Real.sqrt 8 / 3) * (1 - Real.sqrt 8 / 3)))) * (197 / 200)) *
          (359521 / 390625)
      else 0) := by
    intro x y
    rw [hc1]
    by_cases h : x = 1 ∧ y = 1
    · obtain ⟨hx, hy⟩ := h
      subst hx; subst hy
      rw [if_pos ⟨rfl, rfl⟩]
      norm_num [RippleSimulation.nextHeight, RippleSimulation.getEdgeFactor,
        e11, e21, e12, e01, e10]
      ring
    · rw [if_neg h, nextHeight_outside _ _ _ _ _ _ (by dsimp only; omega)]
  have hcur2 : ∀ x y : ℕ,
      (RippleSimulation.update Real.sqrt ⟨3, 3 / 10, 197 / 200, 25, 23 / 25⟩
        (RippleSimulation.update Real.sqrt ⟨3, 3 / 10, 197 / 200, 25, 23 / 25⟩
          (RippleSimulation.addRipple 10 10 1
            ⟨fun _ _ => 0, fun _ _ => 0, fun _ _ => 0, []⟩))).heightCurrent x y =
      (if x = 1 ∧ y = 1 then
        ((2 * (((2 * ((1 - Real.sqrt 8 / 3) * (1 - Real.sqrt 8 / 3)) +
            9 / 100 * (2 * ((1 - Real.sqrt 5 / 3) * (1 - Real.sqrt 5 / 3)) -
              4 * ((1 - Real.sqrt 8 / 3) * (1 - Real.sqrt 8 / 3)))) * (197 / 200)) *
          (359521 / 390625)) -
            (1 - Real.sqrt 8 / 3) * (1 - Real.sqrt 8 / 3) +
            9 / 100 * (-(4 * (((2 * ((1 - Real.sqrt 8 / 3) * (1 - Real.sqrt 8 / 3)) +
              9 / 100 * (2 * ((1 - Real.sqrt 5 / 3) * (1 - Real.sqrt 5 / 3)) -
                4 * ((1 - Real.sqrt 8 / 3) * (1 - Real.sqrt 8 / 3)))) * (197 / 200)) *
            (359521 / 390625))))) * (197 / 200)) * (359521 / 390625)
      else 0) := by
    have hc2 : (RippleSimulation.update Real.sqrt ⟨3, 3 / 10, 197 / 200, 25, 23 / 25⟩
        (RippleSimulation.update Real.sqrt ⟨3, 3 / 10, 197 / 200, 25, 23 / 25⟩
          (RippleSimulation.addRipple 10 10 1
            ⟨fun _ _ => 0, fun _ _ => 0, fun _ _ => 0, []⟩))).heightCurrent =
        RippleSimulation.nextHeight ⟨3, 3 / 10, 197 / 200, 25, 23 / 25⟩
          (RippleSimulation.nextHeight ⟨3, 3 / 10, 197 / 200, 25, 23 / 25⟩
            (RippleSimulation.injectRipples Real.sqrt 3 [(1 : ℝ × ℝ × ℝ)] (fun _ _ => 0))
            (fun _ _ => 0) (fun _ _ => 0))
          (RippleSimulation.injectRipples Real.sqrt 3 [(1 : ℝ × ℝ × ℝ)] (fun _ _ => 0))
          (fun _ _ => 0) := by
      rw [cpu_update_apply, hrip1, hc1, hprev1, hnext1, injectRipples_nil]
    intro x y
    rw [hc2]
    by_cases h : x = 1 ∧ y = 1
    · obtain ⟨hx, hy⟩ := h
      subst hx; subst hy
      rw [if_pos ⟨rfl, rfl⟩]
      norm_num [RippleSimulation.nextHeight, RippleSimulation.getEdgeFactor,
        e11, e21, e12, e01, e10]
      try ring
    · rw [if_neg h, nextHeight_outside _ _ _ _ _ _ (by dsimp only; omega)]
  have hsq8 : Real.sqrt 8 * Real.sqrt 8 = 8 := Real.mul_self_sqrt (by norm_num)
  have hsq5 : Real.sqrt 5 * Real.sqrt 5 = 5 := Real.mul_self_sqrt (by norm_num)
  have h8b := real_sqrt_eight_bounds
  have h5b := real_sqrt_five_bounds
  have hApos : 0 < ((2 * ((1 - Real.sqrt 8 / 3) * (1 - Real.sqrt 8 / 3)) +
      9 / 100 * (2 * ((1 - Real.sqrt 5 / 3) * (1 - Real.sqrt 5 / 3)) -
        4 * ((1 - Real.sqrt 8 / 3) * (1 - Real.sqrt 8 / 3)))) * (197 / 200)) *
      (359521 / 390625) := by
    nlinarith [h8b.1, h8b.2, h5b.1, h5b.2, hsq8, hsq5]
  have hAB : ((2 * ((1 - Real.sqrt 8 / 3) * (1 - Real.sqrt 8 / 3)) +
      9 / 100 * (2 * ((1 - Real.sqrt 5 / 3) * (1 - Real.sqrt 5 / 3)) -
        4 * ((1 - Real.sqrt 8 / 3) * (1 - Real.sqrt 8 / 3)))) * (197 / 200)) *
      (359521 / 390625) <
      ((2 * (((2 * ((1 - Real.sqrt 8 / 3) * (1 - Real.sqrt 8 / 3)) +
          9 / 100 * (2 * ((1 - Real.sqrt 5 / 3) * (1 - Real.sqrt 5 / 3)) -
            4 * ((1 - Real.sqrt 8 / 3) * (1 - Real.sqrt 8 / 3)))) * (197 / 200)) *
        (359521 / 390625)) -
          (1 - Real.sqrt 8 / 3) * (1 - Real.sqrt 8 / 3) +
          9 / 100 * (-(4 * (((2 * ((1 - Real.sqrt 8 / 3) * (1 - Real.sqrt 8 / 3)) +
            9 / 100 * (2 * ((1 - Real.sqrt 5 / 3) * (1 - Real.sqrt 5 / 3)) -
              4 * ((1 - Real.sqrt 8 / 3) * (1 - Real.sqrt 8 / 3)))) * (197 / 200)) *
          (359521 / 390625))))) * (197 / 200)) * (359521 / 390625) := by
    nlinarith [h8b.1, h8b.2, h5b.1, h5b.2, hsq8, hsq5]
  refine ⟨hrip1, by norm_num, ?_⟩
  unfold RippleSimulation.energy
  simp only [Finset.sum_range_succ, Finset.sum_range_zero, hcur1, hcur2]
  norm_num
  nlinarith [hApos, hAB]

/-- Auxiliary: the edge factor always lies in `[0, 1]`. -/
theorem getEdgeFactor_mem (p : RippleSimulation.Params K) (x y : ℕ) :
    0 ≤ RippleSimulation.getEdgeFactor p x y ∧
      RippleSimulation.getEdgeFactor p x y ≤ 1 := by
  unfold RippleSimulation.getEdgeFactor
  by_cases h : p.edgeFadeWidth ≤
      min (min x (p.resolution - 1 - x)) (min y (p.resolution - 1 - y))
  · rw [if_pos h]
    exact ⟨zero_le_one, le_rfl⟩
  · rw [if_neg h]
    dsimp only
    have hmW : min (min x (p.resolution - 1 - x)) (min y (p.resolution - 1 - y)) <
        p.edgeFadeWidth := not_le.mp h
    have hWpos : (0 : K) < (p.edgeFadeWidth : K) := by
      exact_mod_cast lt_of_le_of_lt (Nat.zero_le _) hmW
    set t : K :=
      ((min (min x (p.resolution - 1 - x)) (min y (p.resolution - 1 - y)) : ℕ) : K) /
        (p.edgeFadeWidth : K) with htdef
    have ht0 : 0 ≤ t := div_nonneg (Nat.cast_nonneg _) (Nat.cast_nonneg _)
    have ht1 : t < 1 := by
      rw [htdef, div_lt_one hWpos]
      exact_mod_cast hmW
    constructor
    · exact mul_nonneg (mul_nonneg ht0 ht0) (by linarith)
    · nlinarith [mul_nonneg (mul_nonneg (sub_nonneg.mpr ht1.le) (sub_nonneg.mpr ht1.le))
        (by linarith : (0 : K) ≤ 1 + 2 * t)]

/-- Auxiliary: the interior branch of the CPU wave update written out. -/
theorem nextHeight_interior_apply (p : RippleSimulation.Params K)
    (cur prev nextOld : ℕ → ℕ → K) (x y : ℕ)
    (h : 1 ≤ x ∧ x < p.resolution - 1 ∧ 1 ≤ y ∧ y < p.resolution - 1) :
    RippleSimulation.nextHeight p cur prev nextOld x y =
      (if RippleSimulation.getEdgeFactor p x y < 1 then
        ((2 * cur x y - prev x y + p.waveSpeed * p.waveSpeed *
          (cur (x - 1) y + cur (x + 1) y + cur x (y - 1) + cur x (y + 1) -
            4 * cur x y)) * p.damping) *
          (p.edgeFadeStrength +
            (1 - p.edgeFadeStrength) * RippleSimulation.getEdgeFactor p x y)
      else
        (2 * cur x y - prev x y + p.waveSpeed * p.waveSpeed *
          (cur (x - 1) y + cur (x + 1) y + cur x (y - 1) + cur x (y + 1) -
            4 * cur x y)) * p.damping) := by
  unfold RippleSimulation.nextHeight
  rw [if_pos h]

/-- Auxiliary Jensen-type bound: a convex combination with weights
`1 − 4λ, λ, λ, λ, λ` scaled by a factor in `[0, 1]` has its square bounded
by the same convex combination of the squares. -/
theorem convex_step_sq_bound (lam w c l r u d : K)
    (hlam : 0 ≤ lam) (h4 : 4 * lam ≤ 1) (hw0 : 0 ≤ w) (hw1 : w ≤ 1) :
    (w * (c + lam * (l + r + u + d - 4 * c))) ^ 2 ≤
      (1 - 4 * lam) * c ^ 2 + lam * l ^ 2 + lam * r ^ 2 +
        lam * u ^ 2 + lam * d ^ 2 := by
  have h1m : (0 : K) ≤ 1 - 4 * lam := by linarith
  have hkey : (1 - 4 * lam) * c ^ 2 + lam * l ^ 2 + lam * r ^ 2 +
      lam * u ^ 2 + lam * d ^ 2 -
      (c + lam * (l + r + u + d - 4 * c)) ^ 2 =
      (1 - 4 * lam) * lam *
        ((c - l) ^ 2 + (c - r) ^ 2 + (c - u) ^ 2 + (c - d) ^ 2) +
      lam * lam *
        ((l - r) ^ 2 + (l - u) ^ 2 + (l - d) ^ 2 + (r - u) ^ 2 +
          (r - d) ^ 2 + (u - d) ^ 2) := by
    ring
  have hpos : (0 : K) ≤ (1 - 4 * lam) * lam *
      ((c - l) ^ 2 + (c - r) ^ 2 + (c - u) ^ 2 + (c - d) ^ 2) +
      lam * lam *
      ((l - r) ^ 2 + (l - u) ^ 2 + (l - d) ^ 2 + (r - u) ^ 2 +
        (r - d) ^ 2 + (u - d) ^ 2) := by
    have ha : (0 : K) ≤ (c - l) ^ 2 + (c - r) ^ 2 + (c - u) ^ 2 + (c - d) ^ 2 := by
      positivity
    have hb : (0 : K) ≤ (l - r) ^ 2 + (l - u) ^ 2 + (l - d) ^ 2 + (r - u) ^ 2 +
        (r - d) ^ 2 + (u - d) ^ 2 := by positivity
    exact add_nonneg (mul_nonneg (mul_nonneg h1m hlam) ha)
      (mul_nonneg (mul_nonneg hlam hlam) hb)
  have hS2 : (c + lam * (l + r + u + d - 4 * c)) ^ 2 ≤
      (1 - 4 * lam) * c ^ 2 + lam * l ^ 2 + lam * r ^ 2 +
        lam * u ^ 2 + lam * d ^ 2 := by linarith
  have hw2 : w ^ 2 ≤ 1 := by nlinarith
  calc (w * (c + lam * (l + r + u + d - 4 * c))) ^ 2
      = w ^ 2 * (c + lam * (l + r + u + d - 4 * c)) ^ 2 := by ring
    _ ≤ 1 * (c + lam * (l + r + u + d - 4 * c)) ^ 2 :=
        mul_le_mul_of_nonneg_right hw2 (sq_nonneg _)
    _ = (c + lam * (l + r + u + d - 4 * c)) ^ 2 := one_mul _
    _ ≤ _ := hS2

/-- Auxiliary: per-cell bound for the rest-state step — with `previous`
equal to `current`, the interior update is a damped convex combination of
the center and its neighbors, so its square is bounded by the convex
combination of their squares. -/
theorem nextHeight_rest_sq_le (p : RippleSimulation.Params K)
    (c : ℕ → ℕ → K) (x y : ℕ)
    (hint : 1 ≤ x ∧ x < p.resolution - 1 ∧ 1 ≤ y ∧ y < p.resolution - 1)
    (hd0 : 0 ≤ p.damping) (hd1 : p.damping ≤ 1)
    (hefs0 : 0 ≤ p.edgeFadeStrength) (hefs1 : p.edgeFadeStrength ≤ 1)
    (hc4 : 4 * (p.waveSpeed * p.waveSpeed) ≤ 1) :
    (RippleSimulation.nextHeight p c c (fun _ _ => 0) x y) ^ 2 ≤
      (1 - 4 * (p.waveSpeed * p.waveSpeed)) * c x y ^ 2 +
        (p.waveSpeed * p.waveSpeed) * c (x - 1) y ^ 2 +
        (p.waveSpeed * p.waveSpeed) * c (x + 1) y ^ 2 +
        (p.waveSpeed * p.waveSpeed) * c x (y - 1) ^ 2 +
        (p.waveSpeed * p.waveSpeed) * c x (y + 1) ^ 2 := by
  have hlam : 0 ≤ p.waveSpeed * p.waveSpeed := mul_self_nonneg _
  have hef := getEdgeFactor_mem p x y
  rw [nextHeight_interior_apply p c c _ x y hint]
  by_cases hb : RippleSimulation.getEdgeFactor p x y < 1
  · rw [if_pos hb]
    have habs0 : 0 ≤ p.edgeFadeStrength +
        (1 - p.edgeFadeStrength) * RippleSimulation.getEdgeFactor p x y :=
      add_nonneg hefs0 (mul_nonneg (by linarith) hef.1)
    have habs1 : p.edgeFadeStrength +
        (1 - p.edgeFadeStrength) * RippleSimulation.getEdgeFactor p x y ≤ 1 := by
      nlinarith [hef.1, hef.2]
    have heq : ((2 * c x y - c x y + p.waveSpeed * p.waveSpeed *
        (c (x - 1) y + c (x + 1) y + c x (y - 1) + c x (y + 1) - 4 * c x y)) *
        p.damping) *
        (p.edgeFadeStrength +
          (1 - p.edgeFadeStrength) * RippleSimulation.getEdgeFactor p x y) =
        (p.damping *
          (p.edgeFadeStrength +
            (1 - p.edgeFadeStrength) * RippleSimulation.getEdgeFactor p x y)) *
        (c x y + (p.waveSpeed * p.waveSpeed) *
          (c (x - 1) y + c (x + 1) y + c x (y - 1) + c x (y + 1) - 4 * c x y)) := by
      ring
    rw [heq]
    exact convex_step_sq_bound (p.waveSpeed * p.waveSpeed) _
      (c x y) (c (x - 1) y) (c (x + 1) y) (c x (y - 1)) (c x (y + 1))
      hlam hc4 (mul_nonneg hd0 habs0)
      (by nlinarith [habs0, habs1])
  · rw [if_neg hb]
    have heq : (2 * c x y - c x y + p.waveSpeed * p.waveSpeed *
        (c (x - 1) y + c (x + 1) y + c x (y - 1) + c x (y + 1) - 4 * c x y)) *
        p.damping =
        p.damping * (c x y + (p.waveSpeed * p.waveSpeed) *
          (c (x - 1) y + c (x + 1) y + c x (y - 1) + c x (y + 1) - 4 * c x y)) := by
      ring
    rw [heq]
    exact convex_step_sq_bound (p.waveSpeed * p.waveSpeed) p.damping
      (c x y) (c (x - 1) y) (c (x + 1) y) (c x (y - 1)) (c x (y + 1))
      hlam hc4 hd0 hd1

/-- Auxiliary: the interior window's sum of a nonnegative function is at
most the full-range sum. -/
theorem interior_sum_le (res : ℕ) (f : ℕ → K) (hf : ∀ n, 0 ≤ f n) :
    ∑ y ∈ Finset.Ico 1 (res - 1), f y ≤ ∑ y ∈ Finset.range res, f y := by
  apply Finset.sum_le_sum_of_subset_of_nonneg
  · rw [Finset.range_eq_Ico]
    exact Finset.Ico_subset_Ico (Nat.zero_le _) (Nat.sub_le _ _)
  · intro i _ _
    exact hf i

/-- Auxiliary: a left/up-shifted interior sum of a nonnegative function
is at most the full-range sum. -/
theorem shift_down_sum_le (res : ℕ) (f : ℕ → K) (hf : ∀ n, 0 ≤ f n) :
    ∑ y ∈ Finset.Ico 1 (res - 1), f (y - 1) ≤ ∑ y ∈ Finset.range res, f y := by
  rw [Finset.sum_Ico_eq_sum_range]
  calc ∑ i ∈ Finset.range (res - 1 - 1), f (1 + i - 1)
      = ∑ i ∈ Finset.range (res - 1 - 1), f i :=
        Finset.sum_congr rfl (fun i _ => by congr 1; omega)
    _ ≤ ∑ y ∈ Finset.range res, f y :=
        Finset.sum_le_sum_of_subset_of_nonneg
          (Finset.range_subset.mpr (by omega)) (fun i _ _ => hf i)

/-- Auxiliary: a right/down-shifted interior sum of a nonnegative
function is at most the full-range sum. -/
theorem shift_up_sum_le (res : ℕ) (f : ℕ → K) (hf : ∀ n, 0 ≤ f n) :
    ∑ y ∈ Finset.Ico 1 (res - 1), f (y + 1) ≤ ∑ y ∈ Finset.range res, f y := by
  rw [Finset.sum_Ico_eq_sum_range]
  have hres : res - 1 - 1 = res - 2 := by omega
  rw [hres]
  calc ∑ i ∈ Finset.range (res - 2), f (1 + i + 1)
      = ∑ i ∈ Finset.range (res - 2), f (2 + i) :=
        Finset.sum_congr rfl (fun i _ => by congr 1; omega)
    _ = ∑ y ∈ Finset.Ico 2 res, f y := (Finset.sum_Ico_eq_sum_range _ _ _).symm
    _ ≤ ∑ y ∈ Finset.range res, f y := by
        apply Finset.sum_le_sum_of_subset_of_nonneg
        · rw [Finset.range_eq_Ico]
          exact Finset.Ico_subset_Ico (Nat.zero_le _) le_rfl
        · intro i _ _
          exact hf i

/-- C3 amended: the claimed monotone decay law does hold for rest states.
For a state with an empty queue whose previous buffer equals the current
buffer and whose stale next buffer is zero, with damping in [0, 1), edge
fade strength in [0, 1] and the Courant-type bound waveSpeed² ≤ 1/4, one
CPU update does not increase the sum of squared heights. -/
theorem c3_rest_state_energy_nonincreasing (sqrt : K → K)
    (p : RippleSimulation.Params K) (s : RippleSimulation.State K)
    (hq : s.ripples = [])
    (hprev : s.heightPrevious = s.heightCurrent)
    (hnext : s.heightNext = fun _ _ => 0)
    (hd0 : 0 ≤ p.damping) (hd1 : p.damping < 1)
    (hefs0 : 0 ≤ p.edgeFadeStrength) (hefs1 : p.edgeFadeStrength ≤ 1)
    (hc4 : 4 * (p.waveSpeed * p.waveSpeed) ≤ 1) :
    RippleSimulation.energy p.resolution
        (RippleSimulation.update sqrt p s).heightCurrent ≤
      RippleSimulation.energy p.resolution s.heightCurrent := by
  have hcur : (RippleSimulation.update sqrt p s).heightCurrent =
      RippleSimulation.nextHeight p s.heightCurrent s.heightCurrent
        (fun _ _ => 0) := by
    rw [cpu_update_apply, hq, injectRipples_nil, hprev, hnext]
  rw [hcur]
  unfold RippleSimulation.energy
  set res := p.resolution with hres
  set lam := p.waveSpeed * p.waveSpeed with hlamdef
  set c := s.heightCurrent with hcdef
  set v := RippleSimulation.nextHeight p c c (fun _ _ => 0) with hvdef
  set G : ℕ → K := fun x => ∑ y ∈ Finset.range res, c x y ^ 2 with hGdef
  have hGnn : ∀ x, 0 ≤ G x := fun x => Finset.sum_nonneg (fun y _ => sq_nonneg _)
  have hsub : Finset.Ico 1 (res - 1) ⊆ Finset.range res := by
    rw [Finset.range_eq_Ico]
    exact Finset.Ico_subset_Ico (Nat.zero_le _) (Nat.sub_le _ _)
  have hvsq : ∀ x y : ℕ, ¬ (1 ≤ x ∧ x < res - 1 ∧ 1 ≤ y ∧ y < res - 1) →
      v x y ^ 2 = 0 := by
    intro x y h
    rw [hvdef, nextHeight_outside p c c _ x y h]
    ring
  have hstep1 : ∑ x ∈ Finset.range res, ∑ y ∈ Finset.range res, v x y ^ 2 =
      ∑ x ∈ Finset.Ico 1 (res - 1), ∑ y ∈ Finset.Ico 1 (res - 1), v x y ^ 2 := by
    have inner0 : ∀ x ∈ Finset.range res, x ∉ Finset.Ico 1 (res - 1) →
        ∑ y ∈ Finset.range res, v x y ^ 2 = 0 := by
      intro x _ hx
      apply Finset.sum_eq_zero
      intro y _
      refine hvsq x y ?_
      simp only [Finset.mem_Ico, not_and, not_lt] at hx
      omega
    have innerEq : ∀ x ∈ Finset.Ico 1 (res - 1),
        ∑ y ∈ Finset.range res, v x y ^ 2 =
        ∑ y ∈ Finset.Ico 1 (res - 1), v x y ^ 2 := by
      intro x hx
      symm
      apply Finset.sum_subset hsub
      intro y _ hy
      refine hvsq x y ?_
      simp only [Finset.mem_Ico, not_and, not_lt] at hy
      omega
    calc ∑ x ∈ Finset.range res, ∑ y ∈ Finset.range res, v x y ^ 2
        = ∑ x ∈ Finset.Ico 1 (res - 1), ∑ y ∈ Finset.range res, v x y ^ 2 :=
          (Finset.sum_subset hsub inner0).symm
      _ = ∑ x ∈ Finset.Ico 1 (res - 1), ∑ y ∈ Finset.Ico 1 (res - 1), v x y ^ 2 :=
          Finset.sum_congr rfl innerEq
  have hsum2 : ∑ x ∈ Finset.Ico 1 (res - 1), ∑ y ∈ Finset.Ico 1 (res - 1), v x y ^ 2 ≤
      ∑ x ∈ Finset.Ico 1 (res - 1), ∑ y ∈ Finset.Ico 1 (res - 1),
        ((1 - 4 * lam) * c x y ^ 2 + lam * c (x - 1) y ^ 2 + lam * c (x + 1) y ^ 2 +
          lam * c x (y - 1) ^ 2 + lam * c x (y + 1) ^ 2) := by
    refine Finset.sum_le_sum ?_
    intro x hx
    refine Finset.sum_le_sum ?_
    intro y hy
    rw [hvdef]
    have hx' := Finset.mem_Ico.mp hx
    have hy' := Finset.mem_Ico.mp hy
    exact nextHeight_rest_sq_le p c x y ⟨hx'.1, hx'.2, hy'.1, hy'.2⟩
      hd0 hd1.le hefs0 hefs1 hc4
  have hsplit : ∑ x ∈ Finset.Ico 1 (res - 1), ∑ y ∈ Finset.Ico 1 (res - 1),
      ((1 - 4 * lam) * c x y ^ 2 + lam * c (x - 1) y ^ 2 + lam * c (x + 1) y ^ 2 +
        lam * c x (y - 1) ^ 2 + lam * c x (y + 1) ^ 2) =
      (1 - 4 * lam) *
        (∑ x ∈ Finset.Ico 1 (res - 1), ∑ y ∈ Finset.Ico 1 (res - 1), c x y ^ 2) +
      lam * (∑ x ∈ Finset.Ico 1 (res - 1), ∑ y ∈ Finset.Ico 1 (res - 1),
        c (x - 1) y ^ 2) +
      lam * (∑ x ∈ Finset.Ico 1 (res - 1), ∑ y ∈ Finset.Ico 1 (res - 1),
        c (x + 1) y ^ 2) +
      lam * (∑ x ∈ Finset.Ico 1 (res - 1), ∑ y ∈ Finset.Ico 1 (res - 1),
        c x (y - 1) ^ 2) +
      lam * (∑ x ∈ Finset.Ico 1 (res - 1), ∑ y ∈ Finset.Ico 1 (res - 1),
        c x (y + 1) ^ 2) := by
    simp only [Finset.sum_add_distrib, Finset.mul_sum]
  have hS0 : ∑ x ∈ Finset.Ico 1 (res - 1), ∑ y ∈ Finset.Ico 1 (res - 1), c x y ^ 2 ≤
      ∑ x ∈ Finset.range res, G x := by
    refine le_trans (Finset.sum_le_sum ?_) (interior_sum_le res G hGnn)
    intro x _
    exact interior_sum_le res (fun y => c x y ^ 2) (fun n => sq_nonneg _)
  have hSl : ∑ x ∈ Finset.Ico 1 (res - 1), ∑ y ∈ Finset.Ico 1 (res - 1),
      c (x - 1) y ^ 2 ≤ ∑ x ∈ Finset.range res, G x := by
    refine le_trans (Finset.sum_le_sum ?_) (shift_down_sum_le res G hGnn)
    intro x _
    exact interior_sum_le res (fun y => c (x - 1) y ^ 2) (fun n => sq_nonneg _)
  have hSr : ∑ x ∈ Finset.Ico 1 (res - 1), ∑ y ∈ Finset.Ico 1 (res - 1),
      c (x + 1) y ^ 2 ≤ ∑ x ∈ Finset.range res, G x := by
    refine le_trans (Finset.sum_le_sum ?_) (shift_up_sum_le res G hGnn)
    intro x _
    exact interior_sum_le res (fun y => c (x + 1) y ^ 2) (fun n => sq_nonneg _)
  have hSu : ∑ x ∈ Finset.Ico 1 (res - 1), ∑ y ∈ Finset.Ico 1 (res - 1),
      c x (y - 1) ^ 2 ≤ ∑ x ∈ Finset.range res, G x := by
    refine le_trans (Finset.sum_le_sum ?_) (interior_sum_le res G hGnn)
    intro x _
    exact shift_down_sum_le res (fun y => c x y ^ 2) (fun n => sq_nonneg _)
  have hSd : ∑ x ∈ Finset.Ico 1 (res - 1), ∑ y ∈ Finset.Ico 1 (res - 1),
      c x (y + 1) ^ 2 ≤ ∑ x ∈ Finset.range res, G x := by
    refine le_trans (Finset.sum_le_sum ?_) (interior_sum_le res G hGnn)
    intro x _
    exact shift_up_sum_le res (fun y => c x y ^ 2) (fun n => sq_nonneg _)
  have hlam0 : 0 ≤ lam := mul_self_nonneg _
  have h1m : (0 : K) ≤ 1 - 4 * lam := by linarith
  have hcomb := add_le_add (add_le_add (add_le_add (add_le_add
    (mul_le_mul_of_nonneg_left hS0 h1m) (mul_le_mul_of_nonneg_left hSl hlam0))
    (mul_le_mul_of_nonneg_left hSr hlam0)) (mul_le_mul_of_nonneg_left hSu hlam0))
    (mul_le_mul_of_nonneg_left hSd hlam0)
  calc ∑ x ∈ Finset.range res, ∑ y ∈ Finset.range res, v x y ^ 2
      = ∑ x ∈ Finset.Ico 1 (res - 1), ∑ y ∈ Finset.Ico 1 (res - 1), v x y ^ 2 :=
        hstep1
    _ ≤ ∑ x ∈ Finset.Ico 1 (res - 1), ∑ y ∈ Finset.Ico 1 (res - 1),
        ((1 - 4 * lam) * c x y ^ 2 + lam * c (x - 1) y ^ 2 +
          lam * c (x + 1) y ^ 2 + lam * c x (y - 1) ^ 2 +
          lam * c x (y + 1) ^ 2) := hsum2
    _ = _ := hsplit
    _ ≤ (1 - 4 * lam) * (∑ x ∈ Finset.range res, G x) +
        lam * (∑ x ∈ Finset.range res, G x) +
        lam * (∑ x ∈ Finset.range res, G x) +
        lam * (∑ x ∈ Finset.range res, G x) +
        lam * (∑ x ∈ Finset.range res, G x) := hcomb
    _ = ∑ x ∈ Finset.range res, G x := by ring

/-- Witness for C3 amended: a rest state — a constant-1 interior bump at
(1, 1) on a 4×4 grid with previous = current and zero next buffer —
whose energy does not increase on the next step. -/
theorem c3_amended_witness :
    (([] : List (ℚ × ℚ × ℚ)) = [] ∧ (197 / 200 : ℚ) < 1 ∧
      4 * ((3 : ℚ) / 10 * (3 / 10)) ≤ 1) ∧
    RippleSimulation.energy 4
        (RippleSimulation.update (fun q => q) ⟨4, 3 / 10, 197 / 200, 25, 23 / 25⟩
          ⟨fun x y => if x = 1 ∧ y = 1 then 1 else 0,
           fun x y => if x = 1 ∧ y = 1 then 1 else 0,
           fun _ _ => 0, []⟩).heightCurrent ≤
      RippleSimulation.energy 4
        (fun x y => if x = 1 ∧ y = 1 then (1 : ℚ) else 0) :=
  ⟨⟨rfl, by norm_num, by norm_num⟩,
   c3_rest_state_energy_nonincreasing (fun q => q)
    ⟨4, 3 / 10, 197 / 200, 25, 23 / 25⟩
    ⟨fun x y => if x = 1 ∧ y = 1 then 1 else 0,
     fun x y => if x = 1 ∧ y = 1 then 1 else 0,
     fun _ _ => 0, []⟩
    rfl rfl rfl (by norm_num) (by norm_num) (by norm_num) (by norm_num)
    (by norm_num)⟩

/-- C2 (code bug): on the height texture of a unit bump at cell (8, 8) of
a 16×16 grid, with intensity 0.6, the caustics kernel outputs green
channel 9/50 at cell (9, 8) — its neighbor samples read the B channel
(normal.x) instead of the height — while the spec's formula, the
4-neighbor height Laplacian with base 0.3 and focus gain 50 clamped to
[0, 2], gives 2 there. -/
theorem c2_caustics_wrong_channel :
    (CausticsRenderer.computeNode 16 (3 / 5)
        (RippleSimulation.textureRecord 16
          (fun x y => if x = 8 ∧ y = 8 then (1 : ℚ) else 0)) 9 8).g = 9 / 50 ∧
    CausticsRenderer.specIntensity 16 (3 / 5) 50
        (RippleSimulation.textureRecord 16
          (fun x y => if x = 8 ∧ y = 8 then (1 : ℚ) else 0)) 9 8 = 2 ∧
    (9 / 50 : ℚ) ≠ 2 := by
  refine ⟨?_, ?_, by norm_num⟩ <;>
    norm_num [CausticsRenderer.computeNode, CausticsRenderer.specIntensity,
      CausticsRenderer.sampleClamped, RippleSimulation.textureRecord,
      min_def, max_def]

end Claims
